import Mathlib

/-!
Verification of the deterministic clinical eligibility guardrail engine of the
MatchEngine-Oncology repository: the biomarker status resolver
(`extractBiomarkerStatus`), the guardrail rule engine (`applyMedicalGuardrails`),
the profile and trial validators (`validatePatientProfile`, `validateMockTrials`)
and the profile normalizer (`sanitizePatientProfile`), embedded from
`src/lib/validation.ts`.

Strings are modelled as Lean `String` / `List Char`; the JavaScript string
operations (`toLowerCase`, `includes`, `startsWith`, `trim`, `replace`, `join`)
and the concrete regular expressions appearing in the source are given explicit
executable models below.  Character classes (`\s`, `\w`, case conversion) are
modelled on their ASCII behaviour (plus NBSP for `\s`), which is exact for every
string the checks in this module compare against.  JavaScript objects
(`Record<string, string>`) are modelled as insertion-ordered association lists;
property assignment keeps the position of an existing key and appends a new one,
as in JS.
-/

namespace MatchEngine

/-! ## JS-style string primitives -/

/-- ASCII-plus-NBSP model of the JS whitespace class `\s`. -/
def isSpaceJS (c : Char) : Bool :=
  c == ' ' || c == '\t' || c == '\n' || c == '\r' ||
  c == Char.ofNat 11 || c == Char.ofNat 12 || c == Char.ofNat 160

/-- JS regex word character class `\w` = `[A-Za-z0-9_]`. -/
def isWordChar (c : Char) : Bool := c.isAlpha || c.isDigit || c == '_'

/-- Model of `String.prototype.toLowerCase` (ASCII). -/
def strLower (s : String) : String := String.mk (s.data.map Char.toLower)

/-- Model of `String.prototype.toUpperCase` (ASCII). -/
def strUpper (s : String) : String := String.mk (s.data.map Char.toUpper)

/-- Contiguous-sublist test on character lists (the JS `includes` search). -/
def listInfixOf (pat : List Char) : List Char → Bool
  | [] => pat.isEmpty
  | c :: cs => pat.isPrefixOf (c :: cs) || listInfixOf pat cs

/-- Model of `s.includes(pat)`. -/
def strContains (s pat : String) : Bool := listInfixOf pat.data s.data

/-- Model of `s.startsWith(pat)`. -/
def strStartsWith (s pat : String) : Bool := pat.data.isPrefixOf s.data

/-- Model of `Array.prototype.join(sep)`. -/
def joinSep (sep : String) : List String → String
  | [] => ""
  | x :: xs => xs.foldl (fun acc y => acc ++ sep ++ y) x

/-- Left whitespace trim. -/
def trimL (l : List Char) : List Char := l.dropWhile isSpaceJS

/-- Right whitespace trim. -/
def trimR (l : List Char) : List Char := (l.reverse.dropWhile isSpaceJS).reverse

/-- Both-ends whitespace trim (model of `String.prototype.trim`). -/
def trimJS (l : List Char) : List Char := trimR (trimL l)

/-- Model of `s.trim()`. -/
def strTrim (s : String) : String := String.mk (trimJS s.data)

/-- Model of the global replace `s.replace(/\s+/g, ' ')`: every maximal
whitespace run becomes a single blank. -/
def collapseWs : List Char → List Char
  | [] => []
  | [c] => if isSpaceJS c then [' '] else [c]
  | c :: c2 :: cs =>
    if isSpaceJS c then
      if isSpaceJS c2 then collapseWs (c2 :: cs)
      else ' ' :: collapseWs (c2 :: cs)
    else c :: collapseWs (c2 :: cs)

/-- Case-insensitive literal match at the head of a list: the pattern is given
lowercase and compared against the lowercased text characters (model of a
`/.../i` literal regex fragment on ASCII). -/
def ciPref : List Char → List Char → Bool
  | [], _ => true
  | _ :: _, [] => false
  | p :: ps, c :: cs => p == c.toLower && ciPref ps cs

/-- Decimal digit characters, with explicit fuel (`fuel > n` suffices) so the
definition is structurally recursive and kernel-reducible. -/
def natToCharsAux : Nat → Nat → List Char
  | 0, _ => []
  | fuel + 1, n =>
    if n < 10 then [Char.ofNat (48 + n)]
    else natToCharsAux fuel (n / 10) ++ [Char.ofNat (48 + n % 10)]

/-- Decimal digit characters of a natural number. -/
def natToChars (n : Nat) : List Char := natToCharsAux (n + 1) n

/-- Decimal rendering of a natural number (model of JS number-to-string in a
template literal, for non-negative integers). -/
def natToString (n : Nat) : String := String.mk (natToChars n)

/-- Decimal rendering of an integer. -/
def intToString (i : Int) : String :=
  if i < 0 then "-" ++ natToString i.natAbs else natToString i.toNat

/-! ## Models of the concrete regular expressions in the source -/

/-- Anchored match of one pattern `w1\s*w2\b` attempt at the head of `l`
(the leading `\b` is checked by the caller through the previous character). -/
def wordPairAt (w1 w2 : List Char) (l : List Char) : Bool :=
  w1.isPrefixOf l &&
    (let r2 := (l.drop w1.length).dropWhile isSpaceJS
     w2.isPrefixOf r2 &&
       (match r2.drop w2.length with
        | [] => true
        | c :: _ => !isWordChar c))

/-- Left-to-right scan for `\bw1\s*w2\b`; `prevWord` records whether the
previous character was a word character (no boundary there). -/
def scanWordPair (w1 w2 : List Char) : Bool → List Char → Bool
  | _, [] => false
  | prevWord, c :: cs =>
    (!prevWord && wordPairAt w1 w2 (c :: cs)) || scanWordPair w1 w2 (isWordChar c) cs

/-- Model of `/\bw1\s*w2\b/.test(s)` for word-character-only literals `w1`, `w2`
(used in the source with `her2`/`positive` and `her2`/`negative` on lowercased
trial text). -/
def testWordPair (s w1 w2 : String) : Bool := scanWordPair w1.data w2.data false s.data

/-- Model of the truthiness of `s.match(/stage\s*(i|ii|iii)/i)`: since the
alternation starts with the single letter `i`, the regex matches exactly when
`stage` (case-insensitive) occurs followed by optional whitespace and an
`i`/`I`. -/
def stageEarlyRegex : List Char → Bool
  | [] => false
  | c :: cs =>
    (ciPref ("stage".data) (c :: cs) &&
      (match ((c :: cs).drop 5).dropWhile isSpaceJS with
       | c2 :: _ => c2.toLower == 'i'
       | [] => false)) || stageEarlyRegex cs

/-- Model of `s.match(/ECOG\s*(\d)/i)`, returning the first captured digit. -/
def ecogScan : List Char → Option Nat
  | [] => none
  | c :: cs =>
    if ciPref ("ecog".data) (c :: cs) then
      match ((c :: cs).drop 4).dropWhile isSpaceJS with
      | d :: _ => if d.isDigit then some (d.toNat - 48) else ecogScan cs
      | [] => ecogScan cs
    else ecogScan cs

/-- Model of `nctId.match(/^NCT\d{8}$/)` truthiness. -/
def isValidNctId (s : String) : Bool :=
  match s.data with
  | 'N' :: 'C' :: 'T' :: rest => rest.length == 8 && rest.all Char.isDigit
  | _ => false

/-- Model of the single (leftmost) replace `s.replace(/stage\s*/i, 'Stage ')`. -/
def replaceStage : List Char → List Char
  | [] => []
  | c :: cs =>
    if ciPref ("stage".data) (c :: cs) then
      ("Stage ".data) ++ ((c :: cs).drop 5).dropWhile isSpaceJS
    else c :: replaceStage cs

/-- Model of the single (leftmost) replace `s.replace(/STAGE\s*/i, '')`. -/
def removeStage : List Char → List Char
  | [] => []
  | c :: cs =>
    if ciPref ("stage".data) (c :: cs) then ((c :: cs).drop 5).dropWhile isSpaceJS
    else c :: removeStage cs

/-! ## Data model (from `src/types` / `src/app/api/match/route.ts`) -/

/-- `PatientProfile` from the global type definitions.  `biomarkers` and
`labValues` (`Record<string, string>`) are insertion-ordered association
lists. -/
structure PatientProfile where
  age : Int
  gender : String
  conditions : List String
  medications : List String
  allergies : List String
  biomarkers : List (String × String)
  stage : Option String
  priorTreatments : List String
  performanceStatus : Option String
  labValues : List (String × String)
deriving DecidableEq

/-- `MockTrial`.  `phase`, `matchType` and `cancerType` are kept as plain
strings because the validator defends against arbitrary AI-generated values
(`cancerType` is read by the trial validator although the declared interface
omits it). -/
structure MockTrial where
  nctId : String
  title : String
  phase : String
  briefSummary : String
  inclusionCriteria : List String
  exclusionCriteria : List String
  matchType : String
  matchScore : Int
  cancerType : String
deriving DecidableEq

/-- `MatchResult` — the upstream AI verdict consumed by the guardrails. -/
structure MatchResult where
  matchScore : Int
  confidenceLevel : String
  inclusionMatches : List String
  exclusionFlags : List String
  uncertainFactors : List String
  explanation : String
  questionsToAsk : List String
deriving DecidableEq

/-- The `'match' | 'uncertain' | 'exclude'` union of `overrideStatus`. -/
inductive OverrideStatus where
  | match'
  | uncertain
  | exclude
deriving DecidableEq

/-- `GuardrailResult` returned by `applyMedicalGuardrails`. -/
structure GuardrailResult where
  shouldOverride : Bool
  overrideScore : Option Nat
  overrideStatus : Option OverrideStatus
  flags : List String
  reasoning : String
deriving DecidableEq

/-- `ValidationResult` returned by the two validators. -/
structure ValidationResult where
  isValid : Bool
  errors : List String
  warnings : List String
deriving DecidableEq

/-! ## Biomarker status resolver (`extractBiomarkerStatus`) -/

/-- The `'positive' | 'negative' | 'unknown'` result type of the resolver. -/
inductive BioStatus where
  | positive
  | negative
  | unknown
deriving DecidableEq

/-- `Object.keys(biomarkers).find(k => k.toLowerCase().includes(marker.toLowerCase()))`. -/
def findMarkerKey (biomarkers : List (String × String)) (marker : String) : Option String :=
  (biomarkers.map Prod.fst).find? (fun k => strContains (strLower k) (strLower marker))

/-- The tri-state biomarker status resolver from the source. -/
def extractBiomarkerStatus (biomarkers : List (String × String)) (marker : String) : BioStatus :=
  match findMarkerKey biomarkers marker with
  | none => .unknown
  | some markerKey =>
    let value := strLower ((biomarkers.lookup markerKey).getD "")
    if strContains value "positive" || strContains value "+" ||
       value == "3+" || value == "2+" then .positive
    else if strContains value "negative" || strContains value "-" ||
            value == "0" || value == "1+" then .negative
    else .unknown

/-! ## Guardrail rule engine (`applyMedicalGuardrails`)

The source mutates five local variables (`shouldOverride`, `overrideScore`,
`overrideStatus`, `flags`, `reasoning`) through seven sequential rule blocks;
this is embedded as explicit state passing: each block is a function
`GuardrailResult → GuardrailResult` and the engine composes them in the fixed
source order. -/

/-- `flags.push(f)`. -/
def GuardrailResult.addFlag (st : GuardrailResult) (f : String) : GuardrailResult :=
  { st with flags := st.flags ++ [f] }

/-- The four assignments `shouldOverride = true; overrideScore = n;
overrideStatus = s; reasoning = r` performed by every overriding rule body. -/
def GuardrailResult.setOverride (st : GuardrailResult) (n : Nat) (s : OverrideStatus)
    (r : String) : GuardrailResult :=
  { st with shouldOverride := true, overrideScore := some n, overrideStatus := some s,
            reasoning := r }

/-- Derived fact: lowercased `title + ' ' + briefSummary + ' ' + inclusionCriteria.join(' ')`. -/
def trialTextOf (trial : MockTrial) : String :=
  strLower (trial.title ++ " " ++ trial.briefSummary ++ " " ++ joinSep " " trial.inclusionCriteria)

/-- Derived fact: lowercased `exclusionCriteria.join(' ')`. -/
def exclusionTextOf (trial : MockTrial) : String :=
  strLower (joinSep " " trial.exclusionCriteria)

/-- Derived fact: `extractBiomarkerStatus(biomarkers, 'HER2')`. -/
def her2StatusOf (patient : PatientProfile) : BioStatus :=
  extractBiomarkerStatus patient.biomarkers "HER2"

/-- Helper `requiresHER2Positive` from the source. -/
def requiresHER2Positive (trial : MockTrial) : Bool :=
  let trialText := trialTextOf trial
  strContains trialText "her2+" ||
  strContains trialText "her2-positive" ||
  strContains trialText "her2 positive" ||
  testWordPair trialText "her2" "positive"

/-- Helper `requiresHER2Negative` from the source. -/
def requiresHER2Negative (trial : MockTrial) : Bool :=
  let trialText := trialTextOf trial
  (strContains trialText "her2-negative" ||
   strContains trialText "her2 negative" ||
   strContains trialText "triple negative" ||
   strContains trialText "tnbc" ||
   testWordPair trialText "her2" "negative") &&
  !strContains trialText "her2-positive" &&
  !strContains trialText "her2+" &&
  !strContains trialText "her2 positive" &&
  !testWordPair trialText "her2" "positive" &&
  !strContains trialText "her2-low"

/-- `isMetastatic` from guardrail 2. -/
def isMetastatic (patient : PatientProfile) : Bool :=
  (match patient.stage with
   | some s => strContains (strLower s) "iv" || strContains (strLower s) "metastatic"
   | none => false) ||
  patient.conditions.any (fun c => strContains (strLower c) "metastatic")

/-- `isEarlyStage` from guardrail 2 (truthiness of the stage regex match, and
not metastatic). -/
def isEarlyStage (patient : PatientProfile) : Bool :=
  (match patient.stage with
   | some s => stageEarlyRegex s.data
   | none => false) &&
  !isMetastatic patient

/-- Trial-text keywords of the first branch of guardrail 2. -/
def trialTextMetastatic (trial : MockTrial) : Bool :=
  strContains (trialTextOf trial) "metastatic" ||
  strContains (trialTextOf trial) "stage iv" ||
  strContains (trialTextOf trial) "advanced"

/-- Trial-text keywords of the second branch of guardrail 2. -/
def trialTextEarly (trial : MockTrial) : Bool :=
  strContains (trialTextOf trial) "early" ||
  strContains (trialTextOf trial) "adjuvant" ||
  strContains (trialTextOf trial) "neoadjuvant"

/-- Trigger of guardrail 2, first branch (metastatic trial, early-stage patient). -/
def trigger2a (patient : PatientProfile) (trial : MockTrial) : Bool :=
  trialTextMetastatic trial && isEarlyStage patient

/-- Trigger of guardrail 2, second branch (early trial, metastatic patient). -/
def trigger2b (patient : PatientProfile) (trial : MockTrial) : Bool :=
  trialTextEarly trial && isMetastatic patient

/-- Lowercased joined `priorTreatments` text from guardrail 3. -/
def priorTreatmentsText (patient : PatientProfile) : String :=
  joinSep " " (patient.priorTreatments.map strLower)

/-- `hasPriorTrastuzumab`. -/
def hasPriorTrastuzumab (patient : PatientProfile) : Bool :=
  strContains (priorTreatmentsText patient) "trastuzumab" ||
  strContains (priorTreatmentsText patient) "herceptin"

/-- `hasPriorTaxane`. -/
def hasPriorTaxane (patient : PatientProfile) : Bool :=
  strContains (priorTreatmentsText patient) "taxane" ||
  strContains (priorTreatmentsText patient) "paclitaxel" ||
  strContains (priorTreatmentsText patient) "docetaxel"

/-- `hasPriorTDM1`. -/
def hasPriorTDM1 (patient : PatientProfile) : Bool :=
  strContains (priorTreatmentsText patient) "t-dm1" ||
  strContains (priorTreatmentsText patient) "kadcyla" ||
  strContains (priorTreatmentsText patient) "trastuzumab emtansine"

/-- Trigger of guardrail 3, first block (trial requires prior trastuzumab). -/
def trigger3a (patient : PatientProfile) (trial : MockTrial) : Bool :=
  (strContains (trialTextOf trial) "prior trastuzumab" ||
   strContains (trialTextOf trial) "previous trastuzumab") &&
  !hasPriorTrastuzumab patient

/-- Trigger of guardrail 3, second block (trial requires prior taxane). -/
def trigger3b (patient : PatientProfile) (trial : MockTrial) : Bool :=
  (strContains (trialTextOf trial) "prior taxane" ||
   strContains (trialTextOf trial) "previous taxane") &&
  !hasPriorTaxane patient

/-- Trigger of guardrail 3, third block (trial excludes prior T-DM1). -/
def trigger3c (patient : PatientProfile) (trial : MockTrial) : Bool :=
  (strContains (exclusionTextOf trial) "t-dm1" ||
   strContains (exclusionTextOf trial) "trastuzumab emtansine") &&
  hasPriorTDM1 patient

/-- The parsed ECOG digit of the patient's performance status (guardrail 4). -/
def ecogOf (patient : PatientProfile) : Option Nat :=
  match patient.performanceStatus with
  | some ps => ecogScan ps.data
  | none => none

/-- Trial-text ECOG 0-1 requirement keywords of guardrail 4. -/
def trialEcog01 (trial : MockTrial) : Bool :=
  strContains (trialTextOf trial) "ecog 0-1" ||
  strContains (trialTextOf trial) "ecog performance status 0-1"

/-- Trigger of guardrail 4. -/
def trigger4 (patient : PatientProfile) (trial : MockTrial) : Bool :=
  (match ecogOf patient with
   | some d => trialEcog01 trial && decide (d > 1)
   | none => false)

/-- `isTNBC` from guardrail 5. -/
def isTNBCPatient (patient : PatientProfile) : Bool :=
  patient.conditions.any (fun c =>
    strContains (strLower c) "triple negative" || strContains (strLower c) "tnbc")

/-- `trialForTNBC` from guardrail 5. -/
def trialForTNBC (trial : MockTrial) : Bool :=
  strContains (trialTextOf trial) "triple negative" || strContains (trialTextOf trial) "tnbc"

/-- Trigger of guardrail 5 (TNBC trial, non-TNBC HER2-positive patient). -/
def trigger5 (patient : PatientProfile) (trial : MockTrial) : Bool :=
  trialForTNBC trial && !isTNBCPatient patient && (her2StatusOf patient == .positive)

/-- `hasBrainMets` from guardrail 6. -/
def hasBrainMets (patient : PatientProfile) : Bool :=
  patient.conditions.any (fun c => strContains (strLower c) "brain met") ||
  strContains (priorTreatmentsText patient) "brain" ||
  strContains (priorTreatmentsText patient) "cranial"

/-- Exclusion-text keywords of guardrail 6. -/
def exclBrainMets (trial : MockTrial) : Bool :=
  strContains (exclusionTextOf trial) "brain metastases" ||
  strContains (exclusionTextOf trial) "cns metastases"

/-- Trigger of guardrail 6. -/
def trigger6 (patient : PatientProfile) (trial : MockTrial) : Bool :=
  exclBrainMets trial && hasBrainMets patient

/-- GUARDRAIL 1: HER2 status mismatch (two sequential condition blocks). -/
def guardrail1 (reqPos reqNeg : Bool) (her2Status : BioStatus) (st : GuardrailResult) :
    GuardrailResult :=
  let st1 :=
    if reqPos then
      if her2Status == .negative then
        (st.addFlag "HER2 status mismatch: Trial requires HER2+, patient is HER2-").setOverride
          15 .exclude
          "Hard exclusion: Patient is HER2-negative but trial requires HER2-positive status. This is a fundamental eligibility criterion."
      else if her2Status == .unknown then
        (st.addFlag "HER2 status unknown: Trial requires HER2+, patient status not documented").setOverride
          45 .uncertain
          "Uncertain match: HER2 status not documented. Additional testing required to determine eligibility for this HER2-positive trial."
      else st
    else st
  if reqNeg then
    if her2Status == .positive then
      (st1.addFlag "HER2 status mismatch: Trial requires HER2-, patient is HER2+").setOverride
        15 .exclude
        "Hard exclusion: Patient is HER2-positive but trial requires HER2-negative status."
    else if her2Status == .unknown then
      (st1.addFlag "HER2 status unknown: Trial requires HER2-, patient status not documented").setOverride
        45 .uncertain
        "Uncertain match: HER2 status not documented. Additional testing required to determine eligibility for this HER2-negative trial."
    else st1
  else st1

/-- GUARDRAIL 2: metastatic vs early-stage mismatch (two sequential blocks,
each guarded by its combined trigger). -/
def guardrail2 (trig2a trig2b : Bool) (st : GuardrailResult) : GuardrailResult :=
  let st1 :=
    if trig2a then
      (st.addFlag "Stage mismatch: Trial for metastatic disease, patient has early-stage cancer").setOverride
        20 .exclude
        "Hard exclusion: Trial is for metastatic/advanced breast cancer, but patient has early-stage disease."
    else st
  if trig2b then
    (st1.addFlag "Stage mismatch: Trial for early-stage disease, patient has metastatic cancer").setOverride
      20 .exclude
      "Hard exclusion: Trial is for early-stage breast cancer, but patient has metastatic disease."
  else st1

/-- GUARDRAIL 3: prior treatment requirements (three sequential blocks). -/
def guardrail3 (trig3a trig3b trig3c : Bool) (st : GuardrailResult) : GuardrailResult :=
  let st1 :=
    if trig3a then
      (st.addFlag "Prior treatment requirement: Trial requires prior trastuzumab, patient has not received it").setOverride
        25 .exclude
        "Hard exclusion: Trial requires prior trastuzumab therapy, but patient treatment history does not include it."
    else st
  let st2 :=
    if trig3b then
      (st1.addFlag "Prior treatment requirement: Trial requires prior taxane, patient has not received it").setOverride
        25 .exclude
        "Hard exclusion: Trial requires prior taxane-based therapy, but patient treatment history does not include it."
    else st1
  if trig3c then
    (st2.addFlag "Prior treatment exclusion: Trial excludes prior T-DM1, patient has received it").setOverride
      15 .exclude
      "Hard exclusion: Trial excludes patients with prior T-DM1 therapy, but patient has received it."
  else st2

/-- GUARDRAIL 4: ECOG performance status. -/
def guardrail4 (ecogScore : Option Nat) (req01 : Bool) (st : GuardrailResult) :
    GuardrailResult :=
  match ecogScore with
  | none => st
  | some d =>
    if req01 then
      if d > 1 then
        (st.addFlag ("ECOG performance status: Trial requires ECOG 0-1, patient is ECOG " ++
            natToString d)).setOverride
          30 .exclude
          ("Hard exclusion: Trial requires ECOG performance status 0-1, but patient has ECOG " ++
            natToString d ++ ".")
      else st
    else st

/-- GUARDRAIL 5: TNBC subtype consistency. -/
def guardrail5 (trig5 : Bool) (st : GuardrailResult) : GuardrailResult :=
  if trig5 then
    (st.addFlag "Subtype mismatch: Trial for TNBC, patient is HER2+").setOverride
      15 .exclude
      "Hard exclusion: Trial is for triple-negative breast cancer, but patient is HER2-positive."
  else st

/-- GUARDRAIL 6: brain metastases. -/
def guardrail6 (trig6 : Bool) (st : GuardrailResult) : GuardrailResult :=
  if trig6 then
    (st.addFlag "Brain metastases: Trial excludes brain/CNS metastases, patient has them").setOverride
      20 .exclude
      "Hard exclusion: Trial excludes patients with brain metastases, but patient has documented CNS involvement."
  else st

/-- GUARDRAIL 7: consistency flags comparing the AI explanation text with the
resolved patient facts; appends flags only. -/
def guardrail7 (her2Status : BioStatus) (metastatic : Bool) (assessmentText : String)
    (st : GuardrailResult) : GuardrailResult :=
  let st1 :=
    if her2Status == .positive && strContains assessmentText "her2-negative" then
      st.addFlag "AI consistency error: Assessment mentions HER2-negative but patient is HER2-positive"
    else st
  let st2 :=
    if her2Status == .negative && strContains assessmentText "her2-positive" then
      st1.addFlag "AI consistency error: Assessment mentions HER2-positive but patient is HER2-negative"
    else st1
  if metastatic && strContains assessmentText "early-stage" then
    st2.addFlag "AI consistency error: Assessment mentions early-stage but patient has metastatic disease"
  else st2

/-- The guardrail engine: the seven rule blocks in source order, starting from
the all-clear state, with the final `reasoning || 'No guardrail overrides
applied'` default. -/
def applyMedicalGuardrails (patient : PatientProfile) (trial : MockTrial)
    (aiAssessment : MatchResult) : GuardrailResult :=
  let her2Status := her2StatusOf patient
  let st0 : GuardrailResult := ⟨false, none, none, [], ""⟩
  let st1 := guardrail1 (requiresHER2Positive trial) (requiresHER2Negative trial) her2Status st0
  let st2 := guardrail2 (trigger2a patient trial) (trigger2b patient trial) st1
  let st3 := guardrail3 (trigger3a patient trial) (trigger3b patient trial)
    (trigger3c patient trial) st2
  let st4 := guardrail4 (ecogOf patient) (trialEcog01 trial) st3
  let st5 := guardrail5 (trigger5 patient trial) st4
  let st6 := guardrail6 (trigger6 patient trial) st5
  let st7 := guardrail7 her2Status (isMetastatic patient) (strLower aiAssessment.explanation) st6
  { st7 with reasoning := if st7.reasoning == "" then "No guardrail overrides applied"
                          else st7.reasoning }

/-! ## Patient profile validator (`validatePatientProfile`)

The source pushes messages onto `errors` and `warnings` in a fixed block order
(age, stage, ECOG, biomarker contradiction for errors; age, missing-data for
warnings); each block is embedded as the list of messages it contributes and
the validator concatenates them in that order. -/

/-- Errors of the age if/else-if chain.  The `age === 0` warning arm of the
chain is unreachable because `age < 18` is tested first; it is kept in
`ageWarnings` exactly as in the source. -/
def ageErrors (profile : PatientProfile) : List String :=
  if profile.age < 18 then
    ["Age " ++ intToString profile.age ++ " is below minimum (18 years)"]
  else if profile.age > 120 then
    ["Age " ++ intToString profile.age ++ " is unrealistic (max 120 years)"]
  else []

/-- Warnings of the age if/else-if chain (see `ageErrors`). -/
def ageWarnings (profile : PatientProfile) : List String :=
  if profile.age < 18 then []
  else if profile.age > 120 then []
  else if profile.age == 0 then ["Age not extracted, defaulting to unknown"]
  else []

/-- The closed stage vocabulary of the validator. -/
def validStages : List String :=
  ["I", "IA", "IB", "II", "IIA", "IIB", "III", "IIIA", "IIIB", "IIIC", "IV", "IVA", "IVB"]

/-- Errors of the stage validation block (entered only when `profile.stage` is
truthy). -/
def stageValidationErrors (profile : PatientProfile) : List String :=
  match profile.stage with
  | none => []
  | some st =>
    if st == "" then []
    else
      let normalizedStage := strTrim (String.mk (removeStage (strUpper st).data))
      (if !(validStages.any (fun valid => strStartsWith normalizedStage valid)) then
        ["Invalid cancer stage: \"" ++ st ++ "\". Must be I, II, III, or IV"]
      else []) ++
      (if normalizedStage == "0" &&
          profile.conditions.any (fun c => strContains (strLower c) "metastatic") then
        ["Impossible combination: Stage 0 cannot be metastatic"]
      else [])

/-- Errors of the ECOG validation block (entered only when
`profile.performanceStatus` is truthy). -/
def ecogValidationErrors (profile : PatientProfile) : List String :=
  match profile.performanceStatus with
  | none => []
  | some ps =>
    if ps == "" then []
    else
      match ecogScan ps.data with
      | none => []
      | some d =>
        if decide (d < 0) || decide (d > 5) then
          ["Invalid ECOG score: " ++ natToString d ++ ". Must be 0-5"]
        else []

/-- Errors of the biomarker contradiction block. -/
def contradictionErrors (profile : PatientProfile) : List String :=
  let biomarkerKeys := profile.biomarkers.map (fun p => strLower p.1)
  let biomarkerValues := profile.biomarkers.map (fun p => strLower p.2)
  let isTNBC := profile.conditions.any (fun c =>
    strContains (strLower c) "triple negative" || strContains (strLower c) "tnbc")
  let hasHER2Positive := biomarkerKeys.contains "her2" &&
    biomarkerValues.any (fun v => strContains v "positive" || strContains v "+")
  let hasERPositive := biomarkerKeys.contains "er" &&
    biomarkerValues.any (fun v => strContains v "positive" || strContains v "+")
  let hasPRPositive := biomarkerKeys.contains "pr" &&
    biomarkerValues.any (fun v => strContains v "positive" || strContains v "+")
  if isTNBC && (hasHER2Positive || hasERPositive || hasPRPositive) then
    ["Biomarker contradiction: Triple Negative Breast Cancer cannot be HER2+, ER+, or PR+"]
  else []

/-- Warnings of the missing-critical-data block. -/
def missingDataWarnings (profile : PatientProfile) : List String :=
  (if profile.conditions.length == 0 then
    ["No conditions/diagnoses extracted from patient notes"]
  else []) ++
  (if (match profile.stage with | none => true | some s => s == "") &&
      profile.conditions.any (fun c => strContains (strLower c) "cancer") then
    ["Cancer stage not specified - may limit trial matching accuracy"]
  else []) ++
  (if profile.biomarkers.length == 0 &&
      profile.conditions.any (fun c => strContains (strLower c) "breast cancer") then
    ["No biomarkers (HER2, ER, PR) extracted - critical for breast cancer trial matching"]
  else [])

/-- The patient profile validator. -/
def validatePatientProfile (profile : PatientProfile) : ValidationResult :=
  let errors := ageErrors profile ++ stageValidationErrors profile ++
    ecogValidationErrors profile ++ contradictionErrors profile
  let warnings := ageWarnings profile ++ missingDataWarnings profile
  { isValid := errors.isEmpty, errors := errors, warnings := warnings }

/-! ## Trial record validator (`validateMockTrials`) -/

/-- Errors contributed by one trial record; `index` is the zero-based position
and `trialNum = index + 1` the ordinal used in the messages. -/
def trialErrors (index : Nat) (trial : MockTrial) : List String :=
  let trialNum := index + 1
  (if trial.nctId == "" || !isValidNctId trial.nctId then
    ["Trial " ++ natToString trialNum ++ ": Invalid NCT ID format \"" ++ trial.nctId ++
     "\". Must be NCT + 8 digits"]
  else []) ++
  (if trial.title == "" || trial.title.length < 10 then
    ["Trial " ++ natToString trialNum ++ ": Title missing or too short"]
  else []) ++
  (if trial.phase == "" || !(["Phase 1", "Phase 2", "Phase 3"].contains trial.phase) then
    ["Trial " ++ natToString trialNum ++ ": Invalid phase \"" ++ trial.phase ++
     "\". Must be Phase 1, 2, or 3"]
  else []) ++
  (if trial.briefSummary == "" || trial.briefSummary.length < 20 then
    ["Trial " ++ natToString trialNum ++ ": Brief summary missing or too short"]
  else []) ++
  (if trial.inclusionCriteria.length < 3 then
    ["Trial " ++ natToString trialNum ++ ": Must have at least 3 inclusion criteria"]
  else []) ++
  (if trial.exclusionCriteria.length < 2 then
    ["Trial " ++ natToString trialNum ++ ": Must have at least 2 exclusion criteria"]
  else [])

/-- Warnings contributed by one trial record (cancer type check). -/
def trialWarnings (index : Nat) (trial : MockTrial) : List String :=
  let trialNum := index + 1
  if trial.cancerType == "" ||
     !(["breast", "lung", "colorectal", "prostate", "other"].contains trial.cancerType) then
    ["Trial " ++ natToString trialNum ++ ": Invalid or missing cancerType \"" ++
     trial.cancerType ++ "\""]
  else []

/-- The trial list validator: per-record messages aggregated in record order. -/
def validateMockTrials (trials : List MockTrial) : ValidationResult :=
  let errors := trials.enum.flatMap (fun p => trialErrors p.1 p.2)
  let warnings := trials.enum.flatMap (fun p => trialWarnings p.1 p.2)
  { isValid := errors.isEmpty, errors := errors, warnings := warnings }

/-! ## Profile normalizer and biomarker inferencer (`sanitizePatientProfile`) -/

/-- The two sequential age clamps. -/
def clampAge (age : Int) : Int :=
  let a1 := if age < 0 then 0 else age
  if a1 > 120 then 120 else a1

/-- Stage canonicalization chain
`stage.replace(/stage\s*/i, 'Stage ').replace(/\s+/g, ' ').trim()`. -/
def normalizeStage (s : String) : String :=
  String.mk (trimJS (collapseWs (replaceStage s.data)))

/-- ECOG format normalization: keep strings already starting with `ECOG`
(after uppercasing), otherwise rewrite around the first digit found. -/
def normalizePerfStatus (ps : String) : String :=
  if strStartsWith (strUpper ps) "ECOG" then ps
  else
    match ps.data.find? Char.isDigit with
    | some d => "ECOG " ++ String.mk [d]
    | none => ps

/-- `[A-Z0-9]` membership. -/
def isUpperAlnum (c : Char) : Bool := ('A' ≤ c && c ≤ 'Z') || c.isDigit

/-- Biomarker key normalization `key.toUpperCase().replace(/[^A-Z0-9]/g, '')`. -/
def normalizeBioKey (k : String) : String :=
  String.mk ((strUpper k).data.filter isUpperAlnum)

/-- JS object property assignment on an insertion-ordered record: overwriting
an existing key keeps its position, a new key is appended. -/
def objInsert (l : List (String × String)) (k v : String) : List (String × String) :=
  match l with
  | [] => [(k, v)]
  | (k0, v0) :: tl => if k0 == k then (k, v) :: tl else (k0, v0) :: objInsert tl k v

/-- Truthiness of `!biomarkers[k]`: key absent or value empty. -/
def bioAbsent (bm : List (String × String)) (k : String) : Bool :=
  match bm.lookup k with
  | none => true
  | some v => v == ""

/-- Re-keying of every biomarker entry in enumeration order. -/
def normalizeBiomarkers (bm : List (String × String)) : List (String × String) :=
  bm.foldl (fun acc p => objInsert acc (normalizeBioKey p.1) p.2) []

/-- HER2 inference from the combined free text (first matching branch wins). -/
def inferHER2 (allText : String) (bm : List (String × String)) : List (String × String) :=
  if bioAbsent bm "HER2" then
    if strContains allText "her2+" || strContains allText "her2-positive" ||
       strContains allText "her2 positive" || strContains allText "her2pos" then
      objInsert bm "HER2" "positive"
    else if strContains allText "her2-" || strContains allText "her2-negative" ||
            strContains allText "her2 negative" || strContains allText "her2neg" then
      objInsert bm "HER2" "negative"
    else if strContains allText "triple negative" || strContains allText "tnbc" then
      objInsert bm "HER2" "negative"
    else bm
  else bm

/-- ER inference from the combined free text. -/
def inferER (allText : String) (bm : List (String × String)) : List (String × String) :=
  if bioAbsent bm "ER" then
    if strContains allText "er+" || strContains allText "er-positive" ||
       strContains allText "er positive" || strContains allText "erpos" then
      objInsert bm "ER" "positive"
    else if strContains allText "er-" || strContains allText "er-negative" ||
            strContains allText "er negative" || strContains allText "erneg" then
      objInsert bm "ER" "negative"
    else if strContains allText "triple negative" || strContains allText "tnbc" then
      objInsert bm "ER" "negative"
    else if strContains allText "hr+" || strContains allText "hr-positive" ||
            strContains allText "hormone receptor positive" then
      objInsert bm "ER" "positive"
    else bm
  else bm

/-- PR inference from the combined free text. -/
def inferPR (allText : String) (bm : List (String × String)) : List (String × String) :=
  if bioAbsent bm "PR" then
    if strContains allText "pr+" || strContains allText "pr-positive" ||
       strContains allText "pr positive" || strContains allText "prpos" then
      objInsert bm "PR" "positive"
    else if strContains allText "pr-" || strContains allText "pr-negative" ||
            strContains allText "pr negative" || strContains allText "prneg" then
      objInsert bm "PR" "negative"
    else if strContains allText "triple negative" || strContains allText "tnbc" then
      objInsert bm "PR" "negative"
    else if strContains allText "hr+" || strContains allText "hr-positive" ||
            strContains allText "hormone receptor positive" then
      objInsert bm "PR" "positive"
    else bm
  else bm

/-- The combined lowercased corpus
`[...conditions, ...medications, ...priorTreatments, rawText || ''].join(' ').toLowerCase()`. -/
def allTextOf (profile : PatientProfile) (rawText : Option String) : String :=
  strLower (joinSep " "
    (profile.conditions ++ profile.medications ++ profile.priorTreatments ++ [rawText.getD ""]))

/-- The profile sanitizer: age clamps, stage/ECOG format normalization,
biomarker re-keying, then HER2/ER/PR inference from the combined text. -/
def sanitizePatientProfile (profile : PatientProfile) (rawText : Option String) :
    PatientProfile :=
  let age := clampAge profile.age
  let stage := match profile.stage with
    | none => none
    | some s => if s == "" then some s else some (normalizeStage s)
  let performanceStatus := match profile.performanceStatus with
    | none => none
    | some ps => if ps == "" then some ps else some (normalizePerfStatus ps)
  let allText := allTextOf profile rawText
  let biomarkers :=
    inferPR allText (inferER allText (inferHER2 allText
      (normalizeBiomarkers profile.biomarkers)))
  { profile with age := age, stage := stage, performanceStatus := performanceStatus,
                 biomarkers := biomarkers }

/-! ## Derived trigger predicates and invariants used by the theorems -/

/-- Combined trigger of guardrail 1 (any of its four overriding branches). -/
def trigger1 (patient : PatientProfile) (trial : MockTrial) : Bool :=
  (requiresHER2Positive trial &&
    (her2StatusOf patient == .negative || her2StatusOf patient == .unknown)) ||
  (requiresHER2Negative trial &&
    (her2StatusOf patient == .positive || her2StatusOf patient == .unknown))

/-- The override-field invariant maintained by every guardrail block: an
override carries one of the five rule scores and an `exclude`/`uncertain`
status, and without an override both optional fields are unset. -/
def GuardInv (st : GuardrailResult) : Prop :=
  (st.shouldOverride = true →
    (st.overrideScore = some 15 ∨ st.overrideScore = some 20 ∨ st.overrideScore = some 25 ∨
     st.overrideScore = some 30 ∨ st.overrideScore = some 45) ∧
    (st.overrideStatus = some .exclude ∨ st.overrideStatus = some .uncertain)) ∧
  (st.shouldOverride = false → st.overrideScore = none ∧ st.overrideStatus = none)

/-! ## Proof-side whitespace and occurrence predicates -/

/-- All whitespace characters of the list are plain blanks. -/
def spacesBlank (l : List Char) : Prop := ∀ c ∈ l, isSpaceJS c = true → c = ' '

/-- No two adjacent whitespace characters. -/
def noTwoSpaces (l : List Char) : Prop :=
  List.Chain' (fun a b => isSpaceJS a = false ∨ isSpaceJS b = false) l

/-- The first character, if any, is not whitespace. -/
def headNotSpace (l : List Char) : Prop := ∀ c, l.head? = some c → isSpaceJS c = false

/-- Neither end of the list is whitespace. -/
def wsTrimmed (l : List Char) : Prop := headNotSpace l ∧ headNotSpace l.reverse

/-- Case-insensitive occurrence of the literal `stage` somewhere in the list. -/
def hasStage (l : List Char) : Bool := listInfixOf ("stage".data) (l.map Char.toLower)

/-- The NCT-format error message of the trial validator for ordinal `n`. -/
def nctErrorMsg (n : Nat) (id : String) : String :=
  "Trial " ++ natToString n ++ ": Invalid NCT ID format \"" ++ id ++ "\". Must be NCT + 8 digits"

/-! ## Concrete inputs used by witnesses and counterexamples -/

/-- The concrete age-0 profile exhibiting the dead warning branch (C4). -/
def profileC4 : PatientProfile :=
  { age := 0, gender := "female", conditions := ["breast cancer"], medications := [],
    allergies := [], biomarkers := [("HER2", "negative")], stage := some "Stage II",
    priorTreatments := [], performanceStatus := none, labValues := [] }

/-- C1 counterexample patient: metastatic, HER2-positive, with brain metastases. -/
def patientC1 : PatientProfile :=
  { age := 50, gender := "female", conditions := ["metastatic breast cancer", "brain met"],
    medications := [], allergies := [], biomarkers := [("HER2", "positive")],
    stage := some "Stage IV", priorTreatments := [], performanceStatus := none, labValues := [] }

/-- C1 counterexample trial: an adjuvant TNBC trial whose exclusion criteria
forbid brain metastases, so rules 2, 5 and 6 all trigger. -/
def trialC1 : MockTrial :=
  { nctId := "NCT12345678", title := "Adjuvant TNBC study", phase := "Phase 2",
    briefSummary := "A trial for tnbc patients.", inclusionCriteria := ["age 18 or older"],
    exclusionCriteria := ["brain metastases"], matchType := "excluded", matchScore := 20,
    cancerType := "breast" }

/-- C1 counterexample AI verdict (neutral explanation). -/
def verdictC1 : MatchResult :=
  { matchScore := 50, confidenceLevel := "medium", inclusionMatches := [],
    exclusionFlags := [], uncertainFactors := [], explanation := "Reasonable fit overall.",
    questionsToAsk := [] }

/-- C2 witness patient with an explicit HER2-negative biomarker. -/
def patientC2 : PatientProfile :=
  { age := 45, gender := "female", conditions := ["breast cancer"], medications := [],
    allergies := [], biomarkers := [("HER2", "negative")], stage := none,
    priorTreatments := [], performanceStatus := none, labValues := [] }

/-- C2 witness patient with no HER2 information. -/
def patientC2u : PatientProfile :=
  { age := 45, gender := "female", conditions := ["breast cancer"], medications := [],
    allergies := [], biomarkers := [], stage := none,
    priorTreatments := [], performanceStatus := none, labValues := [] }

/-- C2 witness trial whose inclusion text requires HER2-positive disease. -/
def trialC2 : MockTrial :=
  { nctId := "NCT11111111", title := "Study of drug X", phase := "Phase 2",
    briefSummary := "A study of drug X in breast cancer.",
    inclusionCriteria := ["her2-positive breast cancer"], exclusionCriteria := ["none"],
    matchType := "perfect", matchScore := 90, cancerType := "breast" }

/-- C2 witness AI verdict. -/
def verdictC2 : MatchResult :=
  { matchScore := 88, confidenceLevel := "high", inclusionMatches := [],
    exclusionFlags := [], uncertainFactors := [], explanation := "Good candidate.",
    questionsToAsk := [] }

/-- C8 witness patient (nothing documented). -/
def patientC8 : PatientProfile :=
  { age := 45, gender := "female", conditions := ["breast cancer"], medications := [],
    allergies := [], biomarkers := [("HER2", "positive")], stage := none,
    priorTreatments := [], performanceStatus := none, labValues := [] }

/-- C8 witness trial with neutral wording that triggers no rule. -/
def trialC8 : MockTrial :=
  { nctId := "NCT22222222", title := "Neutral oncology study", phase := "Phase 1",
    briefSummary := "A neutral description text.",
    inclusionCriteria := ["criterion one", "criterion two", "criterion three"],
    exclusionCriteria := ["criterion four", "criterion five"], matchType := "perfect",
    matchScore := 80, cancerType := "breast" }

/-- C8 witness AI verdict whose explanation trips the rule-7 consistency flag
(mentions her2-negative while the patient is HER2-positive). -/
def verdictC8 : MatchResult :=
  { matchScore := 70, confidenceLevel := "low", inclusionMatches := [],
    exclusionFlags := [], uncertainFactors := [],
    explanation := "Patient appears HER2-negative.", questionsToAsk := [] }

/-- C10 witness patient. -/
def patientC10 : PatientProfile :=
  { age := 60, gender := "female", conditions := ["metastatic breast cancer"],
    medications := [], allergies := [], biomarkers := [("HER2", "negative")], stage := none,
    priorTreatments := [], performanceStatus := none, labValues := [] }

/-- C10 witness trial requiring HER2-positive status. -/
def trialC10 : MockTrial :=
  { nctId := "NCT33333333", title := "HER2-positive advanced disease study",
    phase := "Phase 3", briefSummary := "For her2-positive patients.",
    inclusionCriteria := ["her2-positive"], exclusionCriteria := ["none"],
    matchType := "excluded", matchScore := 15, cancerType := "breast" }

/-- C10 witness AI verdict. -/
def verdictC10 : MatchResult :=
  { matchScore := 40, confidenceLevel := "medium", inclusionMatches := [],
    exclusionFlags := [], uncertainFactors := [], explanation := "Possible fit.",
    questionsToAsk := [] }

/-- C6 witness profile: TNBC condition with a HER2-positive biomarker entry. -/
def profileC6 : PatientProfile :=
  { age := 45, gender := "female", conditions := ["triple negative breast cancer"],
    medications := [], allergies := [], biomarkers := [("HER2", "positive")], stage := none,
    priorTreatments := [], performanceStatus := none, labValues := [] }

/-- C7 witness trial with a 7-digit NCT id and otherwise valid fields. -/
def trialC7 : MockTrial :=
  { nctId := "NCT123", title := "A valid long title", phase := "Phase 2",
    briefSummary := "A sufficiently long brief summary.",
    inclusionCriteria := ["a", "b", "c"], exclusionCriteria := ["d", "e"],
    matchType := "perfect", matchScore := 90, cancerType := "breast" }

/-- C1 witness patient: metastatic and HER2-positive, no brain metastases. -/
def patientC1w : PatientProfile :=
  { age := 50, gender := "female", conditions := ["metastatic breast cancer"],
    medications := [], allergies := [], biomarkers := [("HER2", "positive")],
    stage := some "Stage IV", priorTreatments := [], performanceStatus := none, labValues := [] }

/-- C1 witness trial: an adjuvant TNBC trial without a brain-metastases
exclusion, so rules 2 and 5 trigger and rule 6 does not. -/
def trialC1w : MockTrial :=
  { nctId := "NCT12345679", title := "Adjuvant TNBC study", phase := "Phase 2",
    briefSummary := "A trial for tnbc patients.", inclusionCriteria := ["age 18 or older"],
    exclusionCriteria := ["no prior therapy"], matchType := "excluded", matchScore := 20,
    cancerType := "breast" }

/-- C1 witness AI verdict. -/
def verdictC1w : MatchResult :=
  { matchScore := 50, confidenceLevel := "medium", inclusionMatches := [],
    exclusionFlags := [], uncertainFactors := [], explanation := "Reasonable fit overall.",
    questionsToAsk := [] }

/-- C9 counterexample profile: a bare stage token without the word `stage`. -/
def profileC9 : PatientProfile :=
  { age := 40, gender := "female", conditions := ["breast cancer"], medications := [],
    allergies := [], biomarkers := [("HER2", "negative")], stage := some "IIIA",
    priorTreatments := [], performanceStatus := none, labValues := [] }

/-- C9 witness profile: a lowercase stage string with ragged whitespace. -/
def profileC9w : PatientProfile :=
  { age := 40, gender := "female", conditions := ["breast cancer"], medications := [],
    allergies := [], biomarkers := [("HER2", "negative")], stage := some "stage   iiia",
    priorTreatments := [], performanceStatus := none, labValues := [] }

/-! ## Generic bridging lemmas for the string layer -/

theorem isPrefixOf_ex {p m : List Char} : p.isPrefixOf m = true ↔ ∃ t, m = p ++ t := by
  induction p generalizing m with
  | nil => simp [List.isPrefixOf]
  | cons a p ih =>
    cases m with
    | nil => simp [List.isPrefixOf]
    | cons b m =>
      simp only [List.isPrefixOf, Bool.and_eq_true, beq_iff_eq, ih, List.cons_append,
        List.cons.injEq]
      constructor
      · rintro ⟨rfl, t, rfl⟩; exact ⟨t, rfl, rfl⟩
      · rintro ⟨t, rfl, rfl⟩; exact ⟨rfl, t, rfl⟩

theorem listInfixOf_ex {p l : List Char} : listInfixOf p l = true ↔ ∃ s t, l = s ++ p ++ t := by
  induction l with
  | nil =>
    simp only [listInfixOf, List.isEmpty_iff]
    constructor
    · rintro rfl; exact ⟨[], [], rfl⟩
    · rintro ⟨s, t, h⟩
      rcases List.append_eq_nil.mp h.symm with ⟨h1, h2⟩
      exact (List.append_eq_nil.mp h1).2
  | cons c cs ih =>
    simp only [listInfixOf, Bool.or_eq_true, isPrefixOf_ex, ih]
    constructor
    · rintro (⟨t, ht⟩ | ⟨s, t, rfl⟩)
      · exact ⟨[], t, by simpa using ht⟩
      · exact ⟨c :: s, t, rfl⟩
    · rintro ⟨s, t, h⟩
      cases s with
      | nil => exact Or.inl ⟨t, by simpa using h⟩
      | cons x s =>
        rw [List.cons_append, List.cons_append, List.cons.injEq] at h
        exact Or.inr ⟨s, t, h.2⟩

theorem listInfixOf_trans {a b c : List Char} (hab : listInfixOf a b = true)
    (hbc : listInfixOf b c = true) : listInfixOf a c = true := by
  obtain ⟨s1, t1, rfl⟩ := listInfixOf_ex.mp hab
  obtain ⟨s2, t2, rfl⟩ := listInfixOf_ex.mp hbc
  exact listInfixOf_ex.mpr ⟨s2 ++ s1, t1 ++ t2, by simp⟩

theorem data_append (a b : String) : (a ++ b).data = a.data ++ b.data := rfl

/-- If `b` occurs in `s` and `a` occurs in `b`, `a` occurs in `s`
(monotonicity of the JS `includes` under substrings). -/
theorem strContains_mono {s a b : String} (h : strContains s b = true)
    (hab : listInfixOf a.data b.data = true) : strContains s a = true :=
  listInfixOf_trans hab h

/-! ## Guardrail rule-block lemmas -/

theorem addFlag_fields (st : GuardrailResult) (f : String) :
    (st.addFlag f).shouldOverride = st.shouldOverride ∧
    (st.addFlag f).overrideScore = st.overrideScore ∧
    (st.addFlag f).overrideStatus = st.overrideStatus ∧
    (st.addFlag f).reasoning = st.reasoning :=
  ⟨rfl, rfl, rfl, rfl⟩

theorem guardrail1_id {reqPos reqNeg : Bool} {h : BioStatus} {st : GuardrailResult}
    (hp : reqPos = true → h ≠ .negative ∧ h ≠ .unknown)
    (hn : reqNeg = true → h ≠ .positive ∧ h ≠ .unknown) :
    guardrail1 reqPos reqNeg h st = st := by
  unfold guardrail1
  cases reqPos with
  | false =>
    cases reqNeg with
    | false => simp
    | true => obtain ⟨h1, h2⟩ := hn rfl; simp [h1, h2]
  | true =>
    obtain ⟨h1, h2⟩ := hp rfl
    cases reqNeg with
    | false => simp [h1, h2]
    | true => obtain ⟨h3, h4⟩ := hn rfl; simp [h1, h2, h3, h4]

theorem guardrail1_id' {p : PatientProfile} {t : MockTrial} {st : GuardrailResult}
    (h : trigger1 p t = false) :
    guardrail1 (requiresHER2Positive t) (requiresHER2Negative t) (her2StatusOf p) st = st := by
  simp only [trigger1, Bool.or_eq_false_iff, Bool.and_eq_false_iff,
    Bool.or_eq_false_iff, beq_eq_false_iff_ne, ne_eq] at h
  apply guardrail1_id
  · intro hp
    rcases h.1 with h1 | h1
    · rw [hp] at h1; cases h1
    · exact ⟨h1.1, h1.2⟩
  · intro hn
    rcases h.2 with h1 | h1
    · rw [hn] at h1; cases h1
    · exact ⟨h1.1, h1.2⟩

theorem guardrail2_id {a b : Bool} {st : GuardrailResult} (ha : a = false) (hb : b = false) :
    guardrail2 a b st = st := by
  simp [guardrail2, ha, hb]

theorem guardrail2_flags (a b : Bool) (st : GuardrailResult) :
    (guardrail2 a b st).flags = st.flags ++
      (if a then
        ["Stage mismatch: Trial for metastatic disease, patient has early-stage cancer"]
       else []) ++
      (if b then
        ["Stage mismatch: Trial for early-stage disease, patient has metastatic cancer"]
       else []) := by
  cases a <;> cases b <;>
    simp [guardrail2, GuardrailResult.addFlag, GuardrailResult.setOverride]

theorem guardrail3_id {a b c : Bool} {st : GuardrailResult} (ha : a = false) (hb : b = false)
    (hc : c = false) : guardrail3 a b c st = st := by
  simp [guardrail3, ha, hb, hc]

theorem guardrail3_flags (a b c : Bool) (st : GuardrailResult) :
    (guardrail3 a b c st).flags = st.flags ++
      ((if a then
         ["Prior treatment requirement: Trial requires prior trastuzumab, patient has not received it"]
        else []) ++
       (if b then
         ["Prior treatment requirement: Trial requires prior taxane, patient has not received it"]
        else []) ++
       (if c then
         ["Prior treatment exclusion: Trial excludes prior T-DM1, patient has received it"]
        else [])) := by
  cases a <;> cases b <;> cases c <;>
    simp [guardrail3, GuardrailResult.addFlag, GuardrailResult.setOverride]

theorem guardrail4_id {p : PatientProfile} {t : MockTrial} {st : GuardrailResult}
    (h : trigger4 p t = false) : guardrail4 (ecogOf p) (trialEcog01 t) st = st := by
  rw [trigger4] at h
  unfold guardrail4
  cases he : ecogOf p with
  | none => rfl
  | some d =>
    rw [he] at h
    simp only [Bool.and_eq_false_iff, decide_eq_false_iff_not] at h
    rcases h with h1 | h1
    · simp [h1]
    · simp [h1]

theorem guardrail4_flags (e : Option Nat) (r : Bool) (st : GuardrailResult) :
    (guardrail4 e r st).flags = st.flags ++
      (match e with
       | none => []
       | some d =>
         if r = true ∧ d > 1 then
           ["ECOG performance status: Trial requires ECOG 0-1, patient is ECOG " ++
             natToString d]
         else []) := by
  unfold guardrail4
  cases e with
  | none => simp
  | some d =>
    by_cases h1 : r = true
    · by_cases h2 : d > 1
      · simp [h1, h2, GuardrailResult.addFlag, GuardrailResult.setOverride]
      · simp [h1, h2]
    · simp [h1]

theorem guardrail5_id {a : Bool} {st : GuardrailResult} (h : a = false) :
    guardrail5 a st = st := by rw [h]; rfl

theorem guardrail5_run (st : GuardrailResult) :
    guardrail5 true st =
      { shouldOverride := true, overrideScore := some 15,
        overrideStatus := some .exclude,
        flags := st.flags ++ ["Subtype mismatch: Trial for TNBC, patient is HER2+"],
        reasoning :=
          "Hard exclusion: Trial is for triple-negative breast cancer, but patient is HER2-positive." } :=
  rfl

theorem guardrail6_id {a : Bool} {st : GuardrailResult} (h : a = false) :
    guardrail6 a st = st := by rw [h]; rfl

theorem guardrail7_fields (h : BioStatus) (m : Bool) (a : String) (st : GuardrailResult) :
    (guardrail7 h m a st).shouldOverride = st.shouldOverride ∧
    (guardrail7 h m a st).overrideScore = st.overrideScore ∧
    (guardrail7 h m a st).overrideStatus = st.overrideStatus ∧
    (guardrail7 h m a st).reasoning = st.reasoning := by
  unfold guardrail7
  split_ifs <;> exact ⟨rfl, rfl, rfl, rfl⟩

theorem guardrail7_flags (h : BioStatus) (m : Bool) (a : String) (st : GuardrailResult) :
    (guardrail7 h m a st).flags = st.flags ++
      ((if h == .positive && strContains a "her2-negative" then
         ["AI consistency error: Assessment mentions HER2-negative but patient is HER2-positive"]
        else []) ++
       (if h == .negative && strContains a "her2-positive" then
         ["AI consistency error: Assessment mentions HER2-positive but patient is HER2-negative"]
        else []) ++
       (if m && strContains a "early-stage" then
         ["AI consistency error: Assessment mentions early-stage but patient has metastatic disease"]
        else [])) := by
  unfold guardrail7
  split_ifs <;> simp_all [GuardrailResult.addFlag]

/-! ## C10: the override invariant -/

theorem GuardInv.setOv {st : GuardrailResult} {n : Nat} {s : OverrideStatus}
    (hn : n = 15 ∨ n = 20 ∨ n = 25 ∨ n = 30 ∨ n = 45)
    (hs : s = .exclude ∨ s = .uncertain) (f r : String) :
    GuardInv ((st.addFlag f).setOverride n s r) := by
  constructor
  · intro _
    constructor
    · rcases hn with rfl | rfl | rfl | rfl | rfl <;>
        simp [GuardrailResult.setOverride, GuardrailResult.addFlag]
    · rcases hs with rfl | rfl <;>
        simp [GuardrailResult.setOverride, GuardrailResult.addFlag]
  · intro hfalse
    simp [GuardrailResult.setOverride, GuardrailResult.addFlag] at hfalse

theorem guardrail1_inv {a b : Bool} {h : BioStatus} {st : GuardrailResult}
    (hst : GuardInv st) : GuardInv (guardrail1 a b h st) := by
  unfold guardrail1
  split_ifs <;> first | exact hst | exact GuardInv.setOv (by simp) (by simp) _ _

theorem guardrail2_inv {a b : Bool} {st : GuardrailResult} (hst : GuardInv st) :
    GuardInv (guardrail2 a b st) := by
  unfold guardrail2
  split_ifs <;> first | exact hst | exact GuardInv.setOv (by simp) (by simp) _ _

theorem guardrail3_inv {a b c : Bool} {st : GuardrailResult} (hst : GuardInv st) :
    GuardInv (guardrail3 a b c st) := by
  unfold guardrail3
  split_ifs <;> first | exact hst | exact GuardInv.setOv (by simp) (by simp) _ _

theorem guardrail4_inv {e : Option Nat} {r : Bool} {st : GuardrailResult}
    (hst : GuardInv st) : GuardInv (guardrail4 e r st) := by
  unfold guardrail4
  split
  · exact hst
  · split_ifs <;> first | exact hst | exact GuardInv.setOv (by simp) (by simp) _ _

theorem guardrail5_inv {a : Bool} {st : GuardrailResult} (hst : GuardInv st) :
    GuardInv (guardrail5 a st) := by
  unfold guardrail5
  split_ifs <;> first | exact hst | exact GuardInv.setOv (by simp) (by simp) _ _

theorem guardrail6_inv {a : Bool} {st : GuardrailResult} (hst : GuardInv st) :
    GuardInv (guardrail6 a st) := by
  unfold guardrail6
  split_ifs <;> first | exact hst | exact GuardInv.setOv (by simp) (by simp) _ _

theorem GuardInv.reasonUpdate {st : GuardrailResult} (hst : GuardInv st) (r : String) :
    GuardInv { st with reasoning := r } :=
  ⟨fun h => hst.1 h, fun h => hst.2 h⟩

theorem guardrail7_inv {h : BioStatus} {m : Bool} {a : String} {st : GuardrailResult}
    (hst : GuardInv st) : GuardInv (guardrail7 h m a st) := by
  obtain ⟨h1, h2, h3, _⟩ := guardrail7_fields h m a st
  exact ⟨fun ho => hst.1 (h1 ▸ ho) |>.imp (h2 ▸ id) (h3 ▸ id),
    fun ho => (h2 ▸ (h3 ▸ hst.2 (h1 ▸ ho)))⟩

/-- C10: the returned verdict always satisfies the implicit override invariant:
with `shouldOverride = true` the score is one of 15/20/25/30/45 and the status
is `exclude` or `uncertain` (never `match`); with `shouldOverride = false` both
optional fields are unset. -/
theorem override_invariant (p : PatientProfile) (t : MockTrial) (v : MatchResult) :
    ((applyMedicalGuardrails p t v).shouldOverride = true →
      ((applyMedicalGuardrails p t v).overrideScore = some 15 ∨
       (applyMedicalGuardrails p t v).overrideScore = some 20 ∨
       (applyMedicalGuardrails p t v).overrideScore = some 25 ∨
       (applyMedicalGuardrails p t v).overrideScore = some 30 ∨
       (applyMedicalGuardrails p t v).overrideScore = some 45) ∧
      ((applyMedicalGuardrails p t v).overrideStatus = some .exclude ∨
       (applyMedicalGuardrails p t v).overrideStatus = some .uncertain)) ∧
    ((applyMedicalGuardrails p t v).shouldOverride = false →
      (applyMedicalGuardrails p t v).overrideScore = none ∧
      (applyMedicalGuardrails p t v).overrideStatus = none) := by
  have h0 : GuardInv ⟨false, none, none, [], ""⟩ := by
    constructor
    · intro h; cases h
    · intro _; exact ⟨rfl, rfl⟩
  have h7 : GuardInv (applyMedicalGuardrails p t v) := by
    unfold applyMedicalGuardrails
    refine GuardInv.reasonUpdate ?_ _
    exact guardrail7_inv (guardrail6_inv (guardrail5_inv (guardrail4_inv
      (guardrail3_inv (guardrail2_inv (guardrail1_inv h0))))))
  exact ⟨h7.1, h7.2⟩

/-- Witness for C10 at a concrete triggering input. -/
theorem override_invariant_witness :
    ((applyMedicalGuardrails patientC10 trialC10 verdictC10).shouldOverride = true →
      ((applyMedicalGuardrails patientC10 trialC10 verdictC10).overrideScore = some 15 ∨
       (applyMedicalGuardrails patientC10 trialC10 verdictC10).overrideScore = some 20 ∨
       (applyMedicalGuardrails patientC10 trialC10 verdictC10).overrideScore = some 25 ∨
       (applyMedicalGuardrails patientC10 trialC10 verdictC10).overrideScore = some 30 ∨
       (applyMedicalGuardrails patientC10 trialC10 verdictC10).overrideScore = some 45) ∧
      ((applyMedicalGuardrails patientC10 trialC10 verdictC10).overrideStatus =
          some .exclude ∨
       (applyMedicalGuardrails patientC10 trialC10 verdictC10).overrideStatus =
          some .uncertain)) ∧
    ((applyMedicalGuardrails patientC10 trialC10 verdictC10).shouldOverride = false →
      (applyMedicalGuardrails patientC10 trialC10 verdictC10).overrideScore = none ∧
      (applyMedicalGuardrails patientC10 trialC10 verdictC10).overrideStatus = none) :=
  override_invariant patientC10 trialC10 verdictC10

/-! ## C8: no-trigger default and the flags-only rule 7 -/

/-- C8: when none of the overriding rules 1-6 triggers, the engine returns
`shouldOverride = false` with both optional override fields unset and the fixed
default reasoning, regardless of the AI verdict — rule 7 appends flags only
and never touches the override fields. -/
theorem no_override_default (p : PatientProfile) (t : MockTrial) (v : MatchResult)
    (h1 : trigger1 p t = false) (h2a : trigger2a p t = false) (h2b : trigger2b p t = false)
    (h3a : trigger3a p t = false) (h3b : trigger3b p t = false) (h3c : trigger3c p t = false)
    (h4 : trigger4 p t = false) (h5 : trigger5 p t = false) (h6 : trigger6 p t = false) :
    (applyMedicalGuardrails p t v).shouldOverride = false ∧
    (applyMedicalGuardrails p t v).overrideScore = none ∧
    (applyMedicalGuardrails p t v).overrideStatus = none ∧
    (applyMedicalGuardrails p t v).reasoning = "No guardrail overrides applied" := by
  simp only [applyMedicalGuardrails]
  rw [guardrail1_id' h1, guardrail2_id h2a h2b, guardrail3_id h3a h3b h3c, guardrail4_id h4,
    guardrail5_id h5, guardrail6_id h6]
  obtain ⟨hA, hB, hC, hD⟩ := guardrail7_fields (her2StatusOf p) (isMetastatic p)
    (strLower v.explanation) ⟨false, none, none, [], ""⟩
  refine ⟨by simpa using hA, by simpa using hB, by simpa using hC, ?_⟩
  simp [hD]

/-- Witness for C8: a neutral trial with a HER2-positive patient and an AI
explanation claiming HER2-negative — rule 7 appends a consistency flag while
the override fields keep their defaults. -/
theorem no_override_default_witness :
    ((applyMedicalGuardrails patientC8 trialC8 verdictC8).shouldOverride = false ∧
     (applyMedicalGuardrails patientC8 trialC8 verdictC8).overrideScore = none ∧
     (applyMedicalGuardrails patientC8 trialC8 verdictC8).overrideStatus = none ∧
     (applyMedicalGuardrails patientC8 trialC8 verdictC8).reasoning =
       "No guardrail overrides applied") ∧
    (applyMedicalGuardrails patientC8 trialC8 verdictC8).flags =
      ["AI consistency error: Assessment mentions HER2-negative but patient is HER2-positive"] :=
  ⟨no_override_default patientC8 trialC8 verdictC8 (by decide) (by decide) (by decide)
    (by decide) (by decide) (by decide) (by decide) (by decide) (by decide), by decide⟩

/-! ## C2: rule 1 HER2 requirement mismatch -/

/-- C2: for a trial whose combined title/summary/inclusion text contains
`her2-positive breast cancer` and a patient on whom no later rule (2-6)
triggers, a HER2-negative resolution yields `exclude`/15 with the mismatch
flag, and an unknown resolution yields `uncertain`/45. -/
theorem rule1_her2_requirement (p : PatientProfile) (t : MockTrial) (v : MatchResult)
    (htext : strContains (trialTextOf t) "her2-positive breast cancer" = true)
    (h2a : trigger2a p t = false) (h2b : trigger2b p t = false)
    (h3a : trigger3a p t = false) (h3b : trigger3b p t = false) (h3c : trigger3c p t = false)
    (h4 : trigger4 p t = false) (h5 : trigger5 p t = false) (h6 : trigger6 p t = false) :
    (her2StatusOf p = .negative →
      (applyMedicalGuardrails p t v).shouldOverride = true ∧
      (applyMedicalGuardrails p t v).overrideStatus = some .exclude ∧
      (applyMedicalGuardrails p t v).overrideScore = some 15 ∧
      "HER2 status mismatch: Trial requires HER2+, patient is HER2-" ∈
        (applyMedicalGuardrails p t v).flags) ∧
    (her2StatusOf p = .unknown →
      (applyMedicalGuardrails p t v).shouldOverride = true ∧
      (applyMedicalGuardrails p t v).overrideStatus = some .uncertain ∧
      (applyMedicalGuardrails p t v).overrideScore = some 45) := by
  have hsub : strContains (trialTextOf t) "her2-positive" = true :=
    strContains_mono htext (by decide)
  have hpos : requiresHER2Positive t = true := by
    simp [requiresHER2Positive, hsub]
  have hneg : requiresHER2Negative t = false := by
    simp [requiresHER2Negative, hsub]
  constructor
  · intro hher2
    have hg1 : guardrail1 (requiresHER2Positive t) (requiresHER2Negative t) (her2StatusOf p)
        ⟨false, none, none, [], ""⟩ =
        ⟨true, some 15, some .exclude,
          ["HER2 status mismatch: Trial requires HER2+, patient is HER2-"],
          "Hard exclusion: Patient is HER2-negative but trial requires HER2-positive status. This is a fundamental eligibility criterion."⟩ := by
      rw [hpos, hneg, hher2]; decide
    simp only [applyMedicalGuardrails]
    rw [hg1, guardrail2_id h2a h2b, guardrail3_id h3a h3b h3c, guardrail4_id h4,
      guardrail5_id h5, guardrail6_id h6]
    obtain ⟨hA, hB, hC, _⟩ := guardrail7_fields (her2StatusOf p) (isMetastatic p)
      (strLower v.explanation)
      ⟨true, some 15, some .exclude,
        ["HER2 status mismatch: Trial requires HER2+, patient is HER2-"],
        "Hard exclusion: Patient is HER2-negative but trial requires HER2-positive status. This is a fundamental eligibility criterion."⟩
    have hfl := guardrail7_flags (her2StatusOf p) (isMetastatic p) (strLower v.explanation)
      ⟨true, some 15, some .exclude,
        ["HER2 status mismatch: Trial requires HER2+, patient is HER2-"],
        "Hard exclusion: Patient is HER2-negative but trial requires HER2-positive status. This is a fundamental eligibility criterion."⟩
    refine ⟨by simpa using hA, by simpa using hC, by simpa using hB, ?_⟩
    simp [hfl]
  · intro hher2
    have hg1 : guardrail1 (requiresHER2Positive t) (requiresHER2Negative t) (her2StatusOf p)
        ⟨false, none, none, [], ""⟩ =
        ⟨true, some 45, some .uncertain,
          ["HER2 status unknown: Trial requires HER2+, patient status not documented"],
          "Uncertain match: HER2 status not documented. Additional testing required to determine eligibility for this HER2-positive trial."⟩ := by
      rw [hpos, hneg, hher2]; decide
    simp only [applyMedicalGuardrails]
    rw [hg1, guardrail2_id h2a h2b, guardrail3_id h3a h3b h3c, guardrail4_id h4,
      guardrail5_id h5, guardrail6_id h6]
    obtain ⟨hA, hB, hC, _⟩ := guardrail7_fields (her2StatusOf p) (isMetastatic p)
      (strLower v.explanation)
      ⟨true, some 45, some .uncertain,
        ["HER2 status unknown: Trial requires HER2+, patient status not documented"],
        "Uncertain match: HER2 status not documented. Additional testing required to determine eligibility for this HER2-positive trial."⟩
    exact ⟨by simpa using hA, by simpa using hC, by simpa using hB⟩

/-- Witness for C2 at concrete inputs, both for an explicit HER2-negative
biomarker and for an absent one. -/
theorem rule1_her2_requirement_witness :
    ((applyMedicalGuardrails patientC2 trialC2 verdictC2).shouldOverride = true ∧
     (applyMedicalGuardrails patientC2 trialC2 verdictC2).overrideStatus = some .exclude ∧
     (applyMedicalGuardrails patientC2 trialC2 verdictC2).overrideScore = some 15 ∧
     "HER2 status mismatch: Trial requires HER2+, patient is HER2-" ∈
       (applyMedicalGuardrails patientC2 trialC2 verdictC2).flags) ∧
    ((applyMedicalGuardrails patientC2u trialC2 verdictC2).shouldOverride = true ∧
     (applyMedicalGuardrails patientC2u trialC2 verdictC2).overrideStatus = some .uncertain ∧
     (applyMedicalGuardrails patientC2u trialC2 verdictC2).overrideScore = some 45) :=
  ⟨(rule1_her2_requirement patientC2 trialC2 verdictC2 (by decide) (by decide) (by decide)
      (by decide) (by decide) (by decide) (by decide) (by decide) (by decide)).1 (by decide),
   (rule1_her2_requirement patientC2u trialC2 verdictC2 (by decide) (by decide) (by decide)
      (by decide) (by decide) (by decide) (by decide) (by decide) (by decide)).2 (by decide)⟩

/-! ## C1: ordering of rules 2 and 5 -/

theorem sublist_pair {α : Type} {x y : α} {L : List α}
    (h : ∃ l0 M, L = l0 ++ (x :: M) ∧ y ∈ M) : [x, y].Sublist L := by
  obtain ⟨l0, M, rfl, hy⟩ := h
  refine List.Sublist.trans ?_ (List.sublist_append_right l0 _)
  exact List.Sublist.cons₂ x (List.singleton_sublist.mpr hy)

/-- C1 counterexample: a triple on which rules 2 and 5 both trigger but rule 6
also triggers; the returned override fields are those of rule 6 (score 20,
brain-metastases reasoning), not those of rule 5 (score 15). -/
theorem rule5_fields_overwritten_by_rule6 :
    trigger2b patientC1 trialC1 = true ∧ trigger5 patientC1 trialC1 = true ∧
    (applyMedicalGuardrails patientC1 trialC1 verdictC1).overrideScore = some 20 ∧
    (applyMedicalGuardrails patientC1 trialC1 verdictC1).reasoning =
      "Hard exclusion: Trial excludes patients with brain metastases, but patient has documented CNS involvement." := by
  decide

theorem withReason_shouldOverride (x : GuardrailResult) (r : String) :
    ({ x with reasoning := r } : GuardrailResult).shouldOverride = x.shouldOverride := rfl

theorem withReason_overrideScore (x : GuardrailResult) (r : String) :
    ({ x with reasoning := r } : GuardrailResult).overrideScore = x.overrideScore := rfl

theorem withReason_overrideStatus (x : GuardrailResult) (r : String) :
    ({ x with reasoning := r } : GuardrailResult).overrideStatus = x.overrideStatus := rfl

theorem withReason_flags (x : GuardrailResult) (r : String) :
    ({ x with reasoning := r } : GuardrailResult).flags = x.flags := rfl

theorem withReason_reasoning (x : GuardrailResult) (r : String) :
    ({ x with reasoning := r } : GuardrailResult).reasoning = r := rfl

/-- C1 amended: on every triple on which rule 2 and rule 5 both trigger and
rule 6 does not, the engine returns the rule-5 override fields
(`shouldOverride = true`, score 15, `exclude`, rule-5 reasoning), and the flags
list contains the triggering rule-2 message followed by the rule-5 message. -/
theorem rule2_rule5_last_wins (p : PatientProfile) (t : MockTrial) (v : MatchResult)
    (_h2 : trigger2a p t = true ∨ trigger2b p t = true)
    (h5 : trigger5 p t = true) (h6 : trigger6 p t = false) :
    (applyMedicalGuardrails p t v).shouldOverride = true ∧
    (applyMedicalGuardrails p t v).overrideScore = some 15 ∧
    (applyMedicalGuardrails p t v).overrideStatus = some .exclude ∧
    (applyMedicalGuardrails p t v).reasoning =
      "Hard exclusion: Trial is for triple-negative breast cancer, but patient is HER2-positive." ∧
    (trigger2a p t = true →
      ["Stage mismatch: Trial for metastatic disease, patient has early-stage cancer",
       "Subtype mismatch: Trial for TNBC, patient is HER2+"].Sublist
        (applyMedicalGuardrails p t v).flags) ∧
    (trigger2b p t = true →
      ["Stage mismatch: Trial for early-stage disease, patient has metastatic cancer",
       "Subtype mismatch: Trial for TNBC, patient is HER2+"].Sublist
        (applyMedicalGuardrails p t v).flags) := by
  simp only [applyMedicalGuardrails]
  rw [h5, guardrail6_id h6]
  generalize guardrail1 (requiresHER2Positive t) (requiresHER2Negative t) (her2StatusOf p)
    ⟨false, none, none, [], ""⟩ = st1
  have e2 := guardrail2_flags (trigger2a p t) (trigger2b p t) st1
  generalize hst2 : guardrail2 (trigger2a p t) (trigger2b p t) st1 = st2 at e2
  obtain ⟨J3, e3⟩ : ∃ J, (guardrail3 (trigger3a p t) (trigger3b p t) (trigger3c p t) st2).flags =
      st2.flags ++ J := ⟨_, guardrail3_flags (trigger3a p t) (trigger3b p t) (trigger3c p t) st2⟩
  generalize hst3 : guardrail3 (trigger3a p t) (trigger3b p t) (trigger3c p t) st2 = st3 at e3
  obtain ⟨J4, e4⟩ : ∃ J, (guardrail4 (ecogOf p) (trialEcog01 t) st3).flags = st3.flags ++ J :=
    ⟨_, guardrail4_flags (ecogOf p) (trialEcog01 t) st3⟩
  generalize hst4 : guardrail4 (ecogOf p) (trialEcog01 t) st3 = st4 at e4
  rw [guardrail5_run st4]
  obtain ⟨hA, hB, hC, hD⟩ := guardrail7_fields (her2StatusOf p) (isMetastatic p)
    (strLower v.explanation)
    { shouldOverride := true, overrideScore := some 15, overrideStatus := some .exclude,
      flags := st4.flags ++ ["Subtype mismatch: Trial for TNBC, patient is HER2+"],
      reasoning :=
        "Hard exclusion: Trial is for triple-negative breast cancer, but patient is HER2-positive." }
  obtain ⟨J7, hfl⟩ : ∃ J, (guardrail7 (her2StatusOf p) (isMetastatic p)
      (strLower v.explanation)
      { shouldOverride := true, overrideScore := some 15, overrideStatus := some .exclude,
        flags := st4.flags ++ ["Subtype mismatch: Trial for TNBC, patient is HER2+"],
        reasoning :=
          "Hard exclusion: Trial is for triple-negative breast cancer, but patient is HER2-positive." }).flags =
      (st4.flags ++ ["Subtype mismatch: Trial for TNBC, patient is HER2+"]) ++ J :=
    ⟨_, guardrail7_flags (her2StatusOf p) (isMetastatic p) (strLower v.explanation) _⟩
  generalize hst7 : guardrail7 (her2StatusOf p) (isMetastatic p) (strLower v.explanation)
    { shouldOverride := true, overrideScore := some 15, overrideStatus := some .exclude,
      flags := st4.flags ++ ["Subtype mismatch: Trial for TNBC, patient is HER2+"],
      reasoning :=
        "Hard exclusion: Trial is for triple-negative breast cancer, but patient is HER2-positive." } = st7
    at hA hB hC hD hfl ⊢
  refine ⟨?_, ?_, ?_, ?_, ?_, ?_⟩
  · rw [withReason_shouldOverride, hA]
  · rw [withReason_overrideScore, hB]
  · rw [withReason_overrideStatus, hC]
  · rw [withReason_reasoning, hD]; rfl
  · intro h2a
    refine sublist_pair ⟨st1.flags,
      (if trigger2b p t = true then
        ["Stage mismatch: Trial for early-stage disease, patient has metastatic cancer"]
       else []) ++ J3 ++ J4 ++
        "Subtype mismatch: Trial for TNBC, patient is HER2+" :: J7, ?_, by simp⟩
    rw [withReason_flags, hfl, e4, e3, e2, h2a]
    simp [List.append_assoc]
  · intro h2b
    refine sublist_pair ⟨st1.flags ++
      (if trigger2a p t = true then
        ["Stage mismatch: Trial for metastatic disease, patient has early-stage cancer"]
       else []),
      J3 ++ J4 ++ "Subtype mismatch: Trial for TNBC, patient is HER2+" :: J7, ?_, by simp⟩
    rw [withReason_flags, hfl, e4, e3, e2, h2b]
    simp [List.append_assoc]

/-- Witness for the amended C1 at a concrete input where rules 2 and 5 trigger
and rule 6 does not. -/
theorem rule2_rule5_last_wins_witness :
    (applyMedicalGuardrails patientC1w trialC1w verdictC1w).shouldOverride = true ∧
    (applyMedicalGuardrails patientC1w trialC1w verdictC1w).overrideScore = some 15 ∧
    (applyMedicalGuardrails patientC1w trialC1w verdictC1w).overrideStatus = some .exclude ∧
    (applyMedicalGuardrails patientC1w trialC1w verdictC1w).reasoning =
      "Hard exclusion: Trial is for triple-negative breast cancer, but patient is HER2-positive." ∧
    (trigger2a patientC1w trialC1w = true →
      ["Stage mismatch: Trial for metastatic disease, patient has early-stage cancer",
       "Subtype mismatch: Trial for TNBC, patient is HER2+"].Sublist
        (applyMedicalGuardrails patientC1w trialC1w verdictC1w).flags) ∧
    (trigger2b patientC1w trialC1w = true →
      ["Stage mismatch: Trial for early-stage disease, patient has metastatic cancer",
       "Subtype mismatch: Trial for TNBC, patient is HER2+"].Sublist
        (applyMedicalGuardrails patientC1w trialC1w verdictC1w).flags) :=
  rule2_rule5_last_wins patientC1w trialC1w verdictC1w (Or.inr (by decide)) (by decide)
    (by decide)

/-! ## C3: biomarker resolver value mapping -/

/-- C3: once `findMarkerKey` has matched a key, the (lowercased) value maps to
`positive` when it contains `positive`, contains `+`, or equals `3+`/`2+`; to
`negative` when (failing all positive tests) it contains `negative`, contains
`-`, or equals `0`/`1+`; and to `unknown` otherwise; the positive test is
evaluated first, so a value containing both `positive` and `negative` resolves
to `positive`. -/
theorem resolver_value_mapping (bm : List (String × String)) (marker k : String)
    (hk : findMarkerKey bm marker = some k) :
    ((strContains (strLower ((bm.lookup k).getD "")) "positive" = true ∨
        strContains (strLower ((bm.lookup k).getD "")) "+" = true ∨
        strLower ((bm.lookup k).getD "") = "3+" ∨
        strLower ((bm.lookup k).getD "") = "2+") →
      extractBiomarkerStatus bm marker = .positive) ∧
    (strContains (strLower ((bm.lookup k).getD "")) "positive" = false →
      strContains (strLower ((bm.lookup k).getD "")) "+" = false →
      strLower ((bm.lookup k).getD "") ≠ "3+" →
      strLower ((bm.lookup k).getD "") ≠ "2+" →
      (strContains (strLower ((bm.lookup k).getD "")) "negative" = true ∨
        strContains (strLower ((bm.lookup k).getD "")) "-" = true ∨
        strLower ((bm.lookup k).getD "") = "0" ∨
        strLower ((bm.lookup k).getD "") = "1+") →
      extractBiomarkerStatus bm marker = .negative) ∧
    (strContains (strLower ((bm.lookup k).getD "")) "positive" = false →
      strContains (strLower ((bm.lookup k).getD "")) "+" = false →
      strLower ((bm.lookup k).getD "") ≠ "3+" →
      strLower ((bm.lookup k).getD "") ≠ "2+" →
      strContains (strLower ((bm.lookup k).getD "")) "negative" = false →
      strContains (strLower ((bm.lookup k).getD "")) "-" = false →
      strLower ((bm.lookup k).getD "") ≠ "0" →
      strLower ((bm.lookup k).getD "") ≠ "1+" →
      extractBiomarkerStatus bm marker = .unknown) ∧
    (strContains (strLower ((bm.lookup k).getD "")) "positive" = true →
      strContains (strLower ((bm.lookup k).getD "")) "negative" = true →
      extractBiomarkerStatus bm marker = .positive) := by
  have hunfold : extractBiomarkerStatus bm marker =
      (if strContains (strLower ((bm.lookup k).getD "")) "positive" = true ∨
          strContains (strLower ((bm.lookup k).getD "")) "+" = true ∨
          strLower ((bm.lookup k).getD "") = "3+" ∨
          strLower ((bm.lookup k).getD "") = "2+" then .positive
       else if strContains (strLower ((bm.lookup k).getD "")) "negative" = true ∨
          strContains (strLower ((bm.lookup k).getD "")) "-" = true ∨
          strLower ((bm.lookup k).getD "") = "0" ∨
          strLower ((bm.lookup k).getD "") = "1+" then .negative
       else .unknown) := by
    rw [extractBiomarkerStatus, hk]
    simp only [Bool.or_eq_true, beq_iff_eq, or_assoc]
  rw [hunfold]
  refine ⟨fun h => by rw [if_pos h], fun h1 h2 h3 h4 h5 => ?_, fun h1 h2 h3 h4 h5 h6 h7 h8 => ?_,
    fun h _ => by rw [if_pos (Or.inl h)]⟩
  · rw [if_neg (by simp [h1, h2, h3, h4]), if_pos h5]
  · rw [if_neg (by simp [h1, h2, h3, h4]), if_neg (by simp [h5, h6, h7, h8])]

/-- Witness for C3: a pathological value containing both substrings resolves to
`positive`, via the theorem at a concrete mapping. -/
theorem resolver_value_mapping_witness :
    extractBiomarkerStatus [("HER2", "positive negative")] "HER2" = .positive :=
  (resolver_value_mapping [("HER2", "positive negative")] "HER2" "HER2"
    (by decide)).2.2.2 (by decide) (by decide)

/-! ## C4: age zero handling in the profile validator -/

/-- C4 (the code contradicts the claim): on a profile with `age = 0` the
validator emits the hard error `Age 0 is below minimum (18 years)` and no
`Age not extracted` warning, because the `age === 0` warning arm sits after
the `age < 18` test and is unreachable; `isValid` is false. -/
theorem age_zero_is_hard_error :
    validatePatientProfile profileC4 =
      { isValid := false, errors := ["Age 0 is below minimum (18 years)"], warnings := [] } := by
  decide

/-! ## C6: TNBC contradiction detection -/

/-- C6: a profile with a condition containing `triple negative` and a
`HER2 -> positive` biomarker entry fails validation with the biomarker
contradiction error. -/
theorem tnbc_contradiction (p : PatientProfile)
    (hc : ∃ c ∈ p.conditions, strContains (strLower c) "triple negative" = true)
    (hb : ("HER2", "positive") ∈ p.biomarkers) :
    (validatePatientProfile p).isValid = false ∧
    "Biomarker contradiction: Triple Negative Breast Cancer cannot be HER2+, ER+, or PR+" ∈
      (validatePatientProfile p).errors := by
  obtain ⟨c, hcmem, hcsub⟩ := hc
  have hcontra : contradictionErrors p =
      ["Biomarker contradiction: Triple Negative Breast Cancer cannot be HER2+, ER+, or PR+"] := by
    unfold contradictionErrors
    rw [if_pos]
    simp only [Bool.and_eq_true, List.any_eq_true, Bool.or_eq_true]
    refine ⟨⟨c, hcmem, Or.inl hcsub⟩, Or.inl (Or.inl ⟨?_, ?_⟩)⟩
    · refine List.elem_eq_true_of_mem ?_
      exact List.mem_map.mpr ⟨("HER2", "positive"), hb, by decide⟩
    · exact ⟨strLower "positive", List.mem_map.mpr ⟨("HER2", "positive"), hb, rfl⟩,
        Or.inl (by decide)⟩
  constructor
  · simp [validatePatientProfile, hcontra]
  · simp [validatePatientProfile, hcontra]

/-- Witness for C6 at the concrete profile from the spec example. -/
theorem tnbc_contradiction_witness :
    (validatePatientProfile profileC6).isValid = false ∧
    "Biomarker contradiction: Triple Negative Breast Cancer cannot be HER2+, ER+, or PR+" ∈
      (validatePatientProfile profileC6).errors :=
  tnbc_contradiction profileC6
    ⟨"triple negative breast cancer", by decide, by decide⟩ (by decide)

/-! ## C7: NCT id validation in the trial validator -/

theorem toNat_ofNat_lt (n : Nat) (h : n < 55296) : (Char.ofNat n).toNat = n := by
  rw [Char.ofNat, dif_pos (Or.inl h)]
  simp [Char.ofNatAux, Char.toNat]
  rfl

theorem ofNat_digit_isDigit {d : Nat} (hd : d < 10) : (Char.ofNat (48 + d)).isDigit = true := by
  interval_cases d <;> decide

theorem natToCharsAux_digits :
    ∀ (fuel n : Nat), ∀ c ∈ natToCharsAux fuel n, c.isDigit = true := by
  intro fuel
  induction fuel with
  | zero => intro n c hc; simp [natToCharsAux] at hc
  | succ f ih =>
    intro n c hc
    unfold natToCharsAux at hc
    split_ifs at hc with h10
    · simp only [List.mem_singleton] at hc
      exact hc ▸ ofNat_digit_isDigit h10
    · rcases List.mem_append.mp hc with h | h
      · exact ih _ c h
      · simp only [List.mem_singleton] at h
        exact h ▸ ofNat_digit_isDigit (Nat.mod_lt _ (by omega))

theorem natToChars_digits (n : Nat) : ∀ c ∈ natToChars n, c.isDigit = true :=
  natToCharsAux_digits (n + 1) n

/-- Splitting of two digit-blocks followed by a colon: the colon is not a
digit, so the blocks and the tails coincide. -/
theorem digits_sep {a : List Char} (ha : ∀ c ∈ a, c.isDigit = true) :
    ∀ {b x y : List Char}, (∀ c ∈ b, c.isDigit = true) →
      a ++ ':' :: x = b ++ ':' :: y → a = b ∧ x = y := by
  induction a with
  | nil =>
    intro b x y hb h
    cases b with
    | nil => simpa using h
    | cons d bs =>
      rw [List.nil_append, List.cons_append, List.cons.injEq] at h
      have hd := hb d (by simp)
      rw [← h.1] at hd
      cases hd
  | cons c as ih =>
    intro b x y hb h
    cases b with
    | nil =>
      rw [List.nil_append, List.cons_append, List.cons.injEq] at h
      have hc := ha c (by simp)
      rw [h.1] at hc
      cases hc
    | cons d bs =>
      rw [List.cons_append, List.cons_append, List.cons.injEq] at h
      obtain ⟨h1, h2⟩ := h
      obtain ⟨h3, h4⟩ := ih (fun e he => ha e (by simp [he])) (fun e he => hb e (by simp [he])) h2
      exact ⟨by rw [h1, h3], h4⟩

/-- Two appends with distinct constant prefixes cannot be equal: witnessed by
a position where the prefixes differ. -/
theorem tail_clash (i : Nat) {s1 s2 z1 z2 : List Char} (h : s1 ++ z1 = s2 ++ z2)
    (hi1 : i < s1.length) (hi2 : i < s2.length) (hne : s1[i]? ≠ s2[i]?) : False := by
  have hg := congrArg (fun l => l[i]?) h
  simp only [List.getElem?_append_left hi1, List.getElem?_append_left hi2] at hg
  exact hne hg

theorem nctMsg_data (n : Nat) (id : String) :
    (nctErrorMsg n id).data =
      "Trial ".data ++ (natToChars n ++ ':' :: (" Invalid NCT ID format \"".data ++
        (id.data ++ "\". Must be NCT + 8 digits".data))) := by
  simp only [nctErrorMsg, natToString, data_append, List.append_assoc]
  rfl

theorem trialMsg_data (m : Nat) (suffix : String) :
    ("Trial " ++ natToString m ++ suffix).data =
      "Trial ".data ++ (natToChars m ++ suffix.data) := by
  simp only [natToString, data_append, List.append_assoc]

/-- The NCT-format message determines the offending id (regardless of the
embedded ordinals). -/
theorem nctMsg_inj {n1 n2 : Nat} {id1 id2 : String}
    (h : nctErrorMsg n1 id1 = nctErrorMsg n2 id2) : id1 = id2 := by
  have hd := congrArg String.data h
  rw [nctMsg_data, nctMsg_data] at hd
  have h1 := List.append_cancel_left hd
  obtain ⟨-, h2⟩ := digits_sep (natToChars_digits n1) (natToChars_digits n2) h1
  have h3 := List.append_cancel_left h2
  have h4 := List.append_cancel_right h3
  exact String.ext h4

theorem mem_cond_singleton {α : Type} {a b : α} {c : Prop} [Decidable c]
    (h : a ∈ (if c then [b] else [])) : c ∧ a = b := by
  split_ifs at h with hc
  · exact ⟨hc, by simpa using h⟩
  · simp at h

theorem phaseMsg_data (m : Nat) (ph : String) :
    ("Trial " ++ natToString m ++ ": Invalid phase \"" ++ ph ++
      "\". Must be Phase 1, 2, or 3").data =
      "Trial ".data ++ (natToChars m ++ ':' :: (" Invalid phase \"".data ++
        (ph.data ++ "\". Must be Phase 1, 2, or 3".data))) := by
  simp only [natToString, data_append, List.append_assoc]
  rfl

/-- C7: the trial validator produces the NCT-format error message for record
`i` (naming the ordinal `i+1` and the malformed id) exactly when that record's
`nctId` is missing (empty) or fails `NCT` + 8 digits. -/
theorem nct_id_error_iff (trials : List MockTrial) (i : Nat) (t : MockTrial)
    (ht : trials[i]? = some t) :
    nctErrorMsg (i + 1) t.nctId ∈ (validateMockTrials trials).errors ↔
      (t.nctId = "" ∨ isValidNctId t.nctId = false) := by
  constructor
  · intro hmem
    simp only [validateMockTrials] at hmem
    rw [List.mem_flatMap] at hmem
    obtain ⟨⟨j, u⟩, hju, hm⟩ := hmem
    simp only [trialErrors, List.append_assoc, List.mem_append] at hm
    rcases hm with h | h | h | h | h | h
    · obtain ⟨hcond, heq⟩ := mem_cond_singleton h
      have hid : t.nctId = u.nctId := nctMsg_inj heq
      rw [Bool.or_eq_true, beq_iff_eq, Bool.not_eq_true', ← hid] at hcond
      exact hcond
    · obtain ⟨-, heq⟩ := mem_cond_singleton h
      exfalso
      have hd := congrArg String.data heq
      rw [nctMsg_data, trialMsg_data,
        show (": Title missing or too short" : String).data =
          ':' :: (" Title missing or too short" : String).data from rfl] at hd
      obtain ⟨-, h2⟩ := digits_sep (natToChars_digits _) (natToChars_digits _)
        (List.append_cancel_left hd)
      rw [← List.append_nil (" Title missing or too short" : String).data] at h2
      exact tail_clash 1 h2 (by decide) (by decide) (by decide)
    · obtain ⟨-, heq⟩ := mem_cond_singleton h
      exfalso
      have hd := congrArg String.data heq
      rw [nctMsg_data, phaseMsg_data] at hd
      rw [show (" Invalid phase \"" : String).data ++ (u.phase.data ++
            ("\". Must be Phase 1, 2, or 3" : String).data) =
          (" Invalid phase \"" : String).data ++ (u.phase.data ++
            ("\". Must be Phase 1, 2, or 3" : String).data) from rfl] at hd
      obtain ⟨-, h2⟩ := digits_sep (natToChars_digits _) (natToChars_digits _)
        (List.append_cancel_left hd)
      exact tail_clash 9 h2 (by decide) (by decide) (by decide)
    · obtain ⟨-, heq⟩ := mem_cond_singleton h
      exfalso
      have hd := congrArg String.data heq
      rw [nctMsg_data, trialMsg_data,
        show (": Brief summary missing or too short" : String).data =
          ':' :: (" Brief summary missing or too short" : String).data from rfl] at hd
      obtain ⟨-, h2⟩ := digits_sep (natToChars_digits _) (natToChars_digits _)
        (List.append_cancel_left hd)
      rw [← List.append_nil (" Brief summary missing or too short" : String).data] at h2
      exact tail_clash 1 h2 (by decide) (by decide) (by decide)
    · obtain ⟨-, heq⟩ := mem_cond_singleton h
      exfalso
      have hd := congrArg String.data heq
      rw [nctMsg_data, trialMsg_data,
        show (": Must have at least 3 inclusion criteria" : String).data =
          ':' :: (" Must have at least 3 inclusion criteria" : String).data from rfl] at hd
      obtain ⟨-, h2⟩ := digits_sep (natToChars_digits _) (natToChars_digits _)
        (List.append_cancel_left hd)
      rw [← List.append_nil (" Must have at least 3 inclusion criteria" : String).data] at h2
      exact tail_clash 1 h2 (by decide) (by decide) (by decide)
    · obtain ⟨-, heq⟩ := mem_cond_singleton h
      exfalso
      have hd := congrArg String.data heq
      rw [nctMsg_data, trialMsg_data,
        show (": Must have at least 2 exclusion criteria" : String).data =
          ':' :: (" Must have at least 2 exclusion criteria" : String).data from rfl] at hd
      obtain ⟨-, h2⟩ := digits_sep (natToChars_digits _) (natToChars_digits _)
        (List.append_cancel_left hd)
      rw [← List.append_nil (" Must have at least 2 exclusion criteria" : String).data] at h2
      exact tail_clash 1 h2 (by decide) (by decide) (by decide)
  · intro hbad
    have hcond : (t.nctId == "" || !isValidNctId t.nctId) = true := by
      rcases hbad with h | h
      · simp [h]
      · simp [h]
    simp only [validateMockTrials]
    rw [List.mem_flatMap]
    refine ⟨(i, t), List.mem_enum_iff_getElem?.mpr ht, ?_⟩
    simp only [trialErrors, List.append_assoc, List.mem_append]
    exact Or.inl (by rw [if_pos hcond]; exact List.mem_singleton.mpr rfl)

/-- Witness for C7: a record with `nctId = "NCT123"` produces the indexed
NCT-format error and makes the outcome invalid. -/
theorem nct_id_error_iff_witness :
    (nctErrorMsg 1 trialC7.nctId ∈ (validateMockTrials [trialC7]).errors ↔
      (trialC7.nctId = "" ∨ isValidNctId trialC7.nctId = false)) ∧
    nctErrorMsg 1 "NCT123" ∈ (validateMockTrials [trialC7]).errors ∧
    (validateMockTrials [trialC7]).isValid = false :=
  ⟨nct_id_error_iff [trialC7] 0 trialC7 rfl, by decide, by decide⟩

/-! ## Whitespace and case lemmas for the stage normalizer -/

theorem beq_toLower_irrel (c d : Char) (hd : d.toNat < 65 ∨ 122 < d.toNat) :
    (Char.toLower c == d) = (c == d) := by
  unfold Char.toLower
  simp only []
  split
  · rename_i h
    have h1 : (Char.ofNat (c.toNat + 32)).toNat = c.toNat + 32 := by
      apply toNat_ofNat_lt; omega
    have h2 : ¬(Char.ofNat (c.toNat + 32) = d) := by
      intro he
      have h3 := congrArg Char.toNat he
      rw [h1] at h3
      omega
    have h3 : ¬(c = d) := by
      intro he
      subst he
      omega
    simp [h2, h3]
  · rfl

theorem isSpaceJS_toLower (c : Char) : isSpaceJS (Char.toLower c) = isSpaceJS c := by
  unfold isSpaceJS
  rw [beq_toLower_irrel c ' ' (by decide), beq_toLower_irrel c '\t' (by decide),
    beq_toLower_irrel c '\n' (by decide), beq_toLower_irrel c '\r' (by decide),
    beq_toLower_irrel c (Char.ofNat 11) (by decide), beq_toLower_irrel c (Char.ofNat 12)
      (by decide), beq_toLower_irrel c (Char.ofNat 160) (by decide)]

theorem collapseWs_cons_nonspace {c : Char} (h : isSpaceJS c = false) (l : List Char) :
    collapseWs (c :: l) = c :: collapseWs l := by
  cases l with
  | nil => simp [collapseWs, h]
  | cons c2 cs => simp [collapseWs, h]

theorem collapseWs_cons_space_space {c c2 : Char} (h : isSpaceJS c = true)
    (h2 : isSpaceJS c2 = true) (l : List Char) :
    collapseWs (c :: c2 :: l) = collapseWs (c2 :: l) := by
  simp [collapseWs, h, h2]

theorem collapseWs_cons_space_nonspace {c c2 : Char} (h : isSpaceJS c = true)
    (h2 : isSpaceJS c2 = false) (l : List Char) :
    collapseWs (c :: c2 :: l) = ' ' :: collapseWs (c2 :: l) := by
  simp [collapseWs, h, h2]

theorem collapseWs_singleton {c : Char} (h : isSpaceJS c = true) : collapseWs [c] = [' '] := by
  simp [collapseWs, h]

theorem collapseWs_head_space : ∀ (l : List Char) {c : Char}, isSpaceJS c = true →
    (collapseWs (c :: l)).head? = some ' '
  | [], c, h => by rw [collapseWs_singleton h]; rfl
  | c2 :: cs, c, h => by
    cases h2 : isSpaceJS c2 with
    | false => rw [collapseWs_cons_space_nonspace h h2]; rfl
    | true =>
      rw [collapseWs_cons_space_space h h2]
      exact collapseWs_head_space cs h2

theorem collapseWs_head_nonspace {c : Char} (h : isSpaceJS c = false) (l : List Char) :
    (collapseWs (c :: l)).head? = some c := by
  rw [collapseWs_cons_nonspace h]; rfl

theorem spacesBlank_collapseWs : ∀ l, spacesBlank (collapseWs l)
  | [] => by intro x hx _; simp [collapseWs] at hx
  | [c] => by
    intro x hx hs
    cases h : isSpaceJS c with
    | true => rw [collapseWs_singleton h] at hx; simpa using hx
    | false =>
      rw [collapseWs_cons_nonspace h] at hx
      simp [collapseWs] at hx
      rw [hx, h] at hs
      cases hs
  | c :: c2 :: cs => by
    intro x hx hs
    cases h : isSpaceJS c with
    | false =>
      rw [collapseWs_cons_nonspace h] at hx
      rcases List.mem_cons.mp hx with rfl | hx
      · rw [h] at hs; cases hs
      · exact spacesBlank_collapseWs (c2 :: cs) x hx hs
    | true =>
      cases h2 : isSpaceJS c2 with
      | true =>
        rw [collapseWs_cons_space_space h h2] at hx
        exact spacesBlank_collapseWs (c2 :: cs) x hx hs
      | false =>
        rw [collapseWs_cons_space_nonspace h h2] at hx
        rcases List.mem_cons.mp hx with rfl | hx
        · rfl
        · exact spacesBlank_collapseWs (c2 :: cs) x hx hs

theorem noTwoSpaces_collapseWs : ∀ l, noTwoSpaces (collapseWs l)
  | [] => by simp [collapseWs, noTwoSpaces]
  | [c] => by
    cases h : isSpaceJS c with
    | true => rw [collapseWs_singleton h]; exact List.chain'_singleton ' '
    | false => rw [collapseWs_cons_nonspace h]; exact List.chain'_singleton c
  | c :: c2 :: cs => by
    cases h : isSpaceJS c with
    | false =>
      rw [collapseWs_cons_nonspace h]
      exact List.chain'_cons'.mpr ⟨fun b _ => Or.inl h, noTwoSpaces_collapseWs (c2 :: cs)⟩
    | true =>
      cases h2 : isSpaceJS c2 with
      | true =>
        rw [collapseWs_cons_space_space h h2]
        exact noTwoSpaces_collapseWs (c2 :: cs)
      | false =>
        rw [collapseWs_cons_space_nonspace h h2]
        refine List.chain'_cons'.mpr ⟨?_, noTwoSpaces_collapseWs (c2 :: cs)⟩
        intro b hb
        rw [collapseWs_head_nonspace h2] at hb
        cases hb
        exact Or.inr h2

theorem collapseWs_eq_self : ∀ l, spacesBlank l → noTwoSpaces l → collapseWs l = l
  | [], _, _ => rfl
  | [c], hb, _ => by
    cases h : isSpaceJS c with
    | true => rw [collapseWs_singleton h, hb c (by simp) h]
    | false => rw [collapseWs_cons_nonspace h]; rfl
  | c :: c2 :: cs, hb, hc => by
    have hbt : spacesBlank (c2 :: cs) := fun x hx hs => hb x (by simp [hx]) hs
    have hct : noTwoSpaces (c2 :: cs) := (List.chain'_cons.mp hc).2
    cases h : isSpaceJS c with
    | false => rw [collapseWs_cons_nonspace h, collapseWs_eq_self (c2 :: cs) hbt hct]
    | true =>
      cases h2 : isSpaceJS c2 with
      | false =>
        rw [collapseWs_cons_space_nonspace h h2, collapseWs_eq_self (c2 :: cs) hbt hct,
          hb c (by simp) h]
      | true =>
        exfalso
        rcases (List.chain'_cons.mp hc).1 with hh | hh
        · rw [h] at hh; cases hh
        · rw [h2] at hh; cases hh

theorem collapseWs_append_nonspace : ∀ (x : List Char) (c : Char) (y : List Char),
    isSpaceJS c = false → collapseWs (x ++ c :: y) = collapseWs x ++ collapseWs (c :: y)
  | [], c, y, _ => by simp [collapseWs]
  | [a], c, y, h => by
    cases ha : isSpaceJS a with
    | false =>
      rw [List.singleton_append, collapseWs_cons_nonspace ha (c :: y),
        collapseWs_cons_nonspace ha []]
      rfl
    | true =>
      rw [List.singleton_append, collapseWs_cons_space_nonspace ha h y,
        collapseWs_singleton ha]
      rfl
  | a :: a2 :: xs, c, y, h => by
    have IH := collapseWs_append_nonspace (a2 :: xs) c y h
    cases ha : isSpaceJS a with
    | false =>
      rw [List.cons_append, collapseWs_cons_nonspace ha (a2 :: xs ++ c :: y),
        collapseWs_cons_nonspace ha (a2 :: xs)]
      rw [List.cons_append] at IH ⊢
      rw [IH]
      rfl
    | true =>
      cases ha2 : isSpaceJS a2 with
      | false =>
        rw [List.cons_append, List.cons_append, collapseWs_cons_space_nonspace ha ha2
          (xs ++ c :: y), collapseWs_cons_space_nonspace ha ha2 xs]
        rw [List.cons_append] at IH
        rw [IH]
        rfl
      | true =>
        rw [List.cons_append, List.cons_append, collapseWs_cons_space_space ha ha2
          (xs ++ c :: y), collapseWs_cons_space_space ha ha2 xs]
        rw [List.cons_append] at IH
        exact IH

theorem collapseWs_allNonspace_append : ∀ (x y : List Char),
    (∀ c ∈ x, isSpaceJS c = false) → collapseWs (x ++ y) = x ++ collapseWs y
  | [], y, _ => rfl
  | a :: xs, y, hx => by
    rw [List.cons_append, collapseWs_cons_nonspace (hx a (by simp)),
      collapseWs_allNonspace_append xs y (fun c hc => hx c (by simp [hc]))]
    rfl

theorem headNotSpace_dropWhile (l : List Char) : headNotSpace (trimL l) := by
  induction l with
  | nil => intro c hc; cases hc
  | cons a as ih =>
    intro c hc
    unfold trimL at hc
    rw [List.dropWhile_cons] at hc
    split_ifs at hc with ha
    · exact ih c hc
    · simp only [List.head?_cons, Option.some.injEq] at hc
      rw [← hc]
      cases hb : isSpaceJS a with
      | false => rfl
      | true => exact absurd hb ha

theorem trimL_eq_self {l : List Char} (h : headNotSpace l) : trimL l = l := by
  cases l with
  | nil => rfl
  | cons a as =>
    unfold trimL
    rw [List.dropWhile_cons, if_neg]
    rw [h a rfl]
    simp

theorem trimL_decomp (l : List Char) : ∃ t, l = t ++ trimL l :=
  ⟨l.takeWhile isSpaceJS, (List.takeWhile_append_dropWhile isSpaceJS l).symm⟩

theorem trimR_decomp (l : List Char) : ∃ t, l = trimR l ++ t := by
  refine ⟨(l.reverse.takeWhile isSpaceJS).reverse, ?_⟩
  have h : l.reverse = l.reverse.takeWhile isSpaceJS ++ l.reverse.dropWhile isSpaceJS :=
    (List.takeWhile_append_dropWhile isSpaceJS l.reverse).symm
  calc l = l.reverse.reverse := (List.reverse_reverse l).symm
    _ = (l.reverse.takeWhile isSpaceJS ++ l.reverse.dropWhile isSpaceJS).reverse := by rw [← h]
    _ = trimR l ++ (l.reverse.takeWhile isSpaceJS).reverse := by
        rw [List.reverse_append]; rfl

theorem headNotSpace_reverse_trimR (l : List Char) : headNotSpace (trimR l).reverse := by
  rw [trimR, List.reverse_reverse]
  exact headNotSpace_dropWhile l.reverse

theorem trimR_eq_self {l : List Char} (h : headNotSpace l.reverse) : trimR l = l := by
  rw [trimR, show l.reverse.dropWhile isSpaceJS = trimL l.reverse from rfl, trimL_eq_self h,
    List.reverse_reverse]

theorem headNotSpace_trimR {l : List Char} (hl : headNotSpace l) : headNotSpace (trimR l) := by
  obtain ⟨t, ht⟩ := trimR_decomp l
  intro c hc
  cases htr : trimR l with
  | nil => rw [htr] at hc; cases hc
  | cons a rest =>
    rw [htr] at hc
    simp only [List.head?_cons, Option.some.injEq] at hc
    subst hc
    apply hl
    rw [ht, htr]
    rfl

theorem wsTrimmed_trimJS (l : List Char) : wsTrimmed (trimJS l) :=
  ⟨headNotSpace_trimR (headNotSpace_dropWhile l), headNotSpace_reverse_trimR (trimL l)⟩

theorem trimJS_eq_self {l : List Char} (h : wsTrimmed l) : trimJS l = l := by
  rw [trimJS, show trimL l = l from trimL_eq_self h.1, trimR_eq_self h.2]

theorem trimJS_mid (l : List Char) : ∃ a b, l = a ++ trimJS l ++ b := by
  obtain ⟨t1, h1⟩ := trimL_decomp l
  obtain ⟨t2, h2⟩ := trimR_decomp (trimL l)
  refine ⟨t1, t2, ?_⟩
  show l = t1 ++ trimR (trimL l) ++ t2
  calc l = t1 ++ trimL l := h1
    _ = t1 ++ (trimR (trimL l) ++ t2) := by rw [← h2]
    _ = t1 ++ trimR (trimL l) ++ t2 := by rw [List.append_assoc]

theorem spacesBlank_mid {l a b m : List Char} (h : l = a ++ m ++ b) (hl : spacesBlank l) :
    spacesBlank m := fun c hc hs => hl c (by rw [h]; simp [hc]) hs

theorem noTwoSpaces_mid {l a b m : List Char} (h : l = a ++ m ++ b) (hl : noTwoSpaces l) :
    noTwoSpaces m := by
  subst h
  rw [List.append_assoc] at hl
  exact (List.chain'_append.mp ((List.chain'_append.mp hl).2.1)).1

theorem spacesBlank_trimJS {l : List Char} (h : spacesBlank l) : spacesBlank (trimJS l) := by
  obtain ⟨a, b, he⟩ := trimJS_mid l
  exact spacesBlank_mid he h

theorem noTwoSpaces_trimJS {l : List Char} (h : noTwoSpaces l) : noTwoSpaces (trimJS l) := by
  obtain ⟨a, b, he⟩ := trimJS_mid l
  exact noTwoSpaces_mid he h

theorem ciPref_eq : ∀ (p l : List Char), ciPref p l = p.isPrefixOf (l.map Char.toLower)
  | [], l => by cases l <;> rfl
  | p :: ps, [] => rfl
  | p :: ps, c :: cs => by
    rw [List.map_cons]
    show (p == c.toLower && ciPref ps cs) = (p == c.toLower && ps.isPrefixOf (cs.map Char.toLower))
    rw [ciPref_eq ps cs]

theorem isPrefixOf_take : ∀ (p m : List Char), p.isPrefixOf m = p.isPrefixOf (m.take p.length)
  | [], m => by cases m <;> rfl
  | p :: ps, [] => rfl
  | p :: ps, c :: cs => by
    show (p == c && ps.isPrefixOf cs) = (p == c && ps.isPrefixOf (cs.take ps.length))
    rw [isPrefixOf_take ps cs]

theorem ciPref_take (p l : List Char) : ciPref p l = ciPref p (l.take p.length) := by
  rw [ciPref_eq, ciPref_eq, List.map_take]
  exact isPrefixOf_take p (l.map Char.toLower)

theorem ciPref_append_long {p x : List Char} (y : List Char) (h : p.length ≤ x.length) :
    ciPref p (x ++ y) = ciPref p x := by
  rw [ciPref_take p (x ++ y), List.take_append_of_le_length h, ← ciPref_take]

theorem ciPref_length {p l : List Char} (h : ciPref p l = true) : p.length ≤ l.length := by
  rw [ciPref_eq] at h
  obtain ⟨t, ht⟩ := isPrefixOf_ex.mp h
  have hl := congrArg List.length ht
  simp at hl
  omega

theorem ciPref_append_of_true {p x : List Char} (y : List Char) (h : ciPref p x = true) :
    ciPref p (x ++ y) = true := by
  rw [ciPref_append_long y (ciPref_length h)]
  exact h

theorem hasStage_cons (c : Char) (l : List Char) :
    hasStage (c :: l) = (ciPref ("stage".data) (c :: l) || hasStage l) := by
  rw [hasStage, hasStage, ciPref_eq, List.map_cons]
  rfl

theorem replaceStage_of_not : ∀ l, hasStage l = false → replaceStage l = l
  | [], _ => rfl
  | c :: cs, h => by
    rw [hasStage_cons] at h
    obtain ⟨h1, h2⟩ := Bool.or_eq_false_iff.mp h
    simp [replaceStage, h1, replaceStage_of_not cs h2]

theorem replaceStage_spec : ∀ l, hasStage l = true →
    ∃ a b, l = a ++ b ∧ ciPref ("stage".data) b = true ∧
      (∀ s t, a = s ++ t → t ≠ [] → ciPref ("stage".data) (t ++ b) = false) ∧
      replaceStage l = a ++ "Stage ".data ++ ((b.drop 5).dropWhile isSpaceJS)
  | [], h => by rw [hasStage] at h; cases h
  | c :: cs, h => by
    cases hc : ciPref ("stage".data) (c :: cs) with
    | true =>
      refine ⟨[], c :: cs, rfl, hc, ?_, ?_⟩
      · intro s t hst htne
        rcases List.append_eq_nil.mp hst.symm with ⟨-, h2⟩
        exact absurd h2 htne
      · simp [replaceStage, hc]
    | false =>
      have h2 : hasStage cs = true := by
        rw [hasStage_cons, hc] at h
        simpa using h
      obtain ⟨a, b, hab, hb, hinv, hrep⟩ := replaceStage_spec cs h2
      refine ⟨c :: a, b, by rw [hab]; rfl, hb, ?_, ?_⟩
      · intro s t hst htne
        cases s with
        | nil =>
          simp only [List.nil_append] at hst
          rw [← hst, show (c :: a) ++ b = c :: (a ++ b) from rfl, ← hab]
          exact hc
        | cons x s' =>
          rw [List.cons_append, List.cons.injEq] at hst
          exact hinv s' t hst.2 htne
      · show replaceStage (c :: cs) = (c :: a) ++ "Stage ".data ++ _
        simp [replaceStage, hc, hrep]

theorem replaceStage_at : ∀ (a b : List Char),
    (∀ s t, a = s ++ t → t ≠ [] → ciPref ("stage".data) (t ++ b) = false) →
    ciPref ("stage".data) b = true →
    replaceStage (a ++ b) = a ++ "Stage ".data ++ ((b.drop 5).dropWhile isSpaceJS)
  | [], b, _, hb => by
    cases b with
    | nil => exact absurd hb (by decide)
    | cons c cs => simp [replaceStage, hb]
  | c :: a', b, hinv, hb => by
    have hc : ciPref ("stage".data) ((c :: a') ++ b) = false := hinv [] (c :: a') rfl (by simp)
    have IH := replaceStage_at a' b
      (fun s t hst htne => hinv (c :: s) t (by rw [hst]; rfl) htne) hb
    show replaceStage (c :: (a' ++ b)) = _
    simp [replaceStage, show ciPref ("stage".data) (c :: (a' ++ b)) = false from hc, IH]

theorem hasStage_of_suffix_ciPref {s t : List Char} (h : ciPref ("stage".data) t = true) :
    hasStage (s ++ t) = true := by
  rw [hasStage]
  apply listInfixOf_ex.mpr
  rw [ciPref_eq] at h
  obtain ⟨r, hr⟩ := isPrefixOf_ex.mp h
  exact ⟨s.map Char.toLower, r, by rw [List.map_append, hr, List.append_assoc]⟩

theorem hasStage_split {x : List Char} (h : hasStage x = true) :
    ∃ s t, x = s ++ t ∧ ciPref ("stage".data) t = true ∧ 5 ≤ t.length := by
  rw [hasStage] at h
  obtain ⟨s', r, hmap⟩ := listInfixOf_ex.mp h
  have hdrop : (x.drop s'.length).map Char.toLower = "stage".data ++ r := by
    rw [List.map_drop, hmap, List.append_assoc, List.drop_left]
  refine ⟨x.take s'.length, x.drop s'.length, (List.take_append_drop _ x).symm, ?_, ?_⟩
  · rw [ciPref_eq, hdrop]
    exact isPrefixOf_ex.mpr ⟨r, rfl⟩
  · have hl := congrArg List.length hdrop
    rw [List.length_map] at hl
    rw [hl, List.length_append]
    have h5 : ("stage".data).length = 5 := rfl
    omega

theorem map_toLower_collapseWs : ∀ l, (collapseWs l).map Char.toLower = collapseWs (l.map Char.toLower)
  | [] => rfl
  | [c] => by
    have hc : isSpaceJS c.toLower = isSpaceJS c := isSpaceJS_toLower c
    cases h : isSpaceJS c with
    | true =>
      rw [collapseWs_singleton h, show ([c].map Char.toLower) = [c.toLower] from rfl,
        collapseWs_singleton (hc.trans h)]
      rfl
    | false =>
      rw [show collapseWs [c] = [c] from collapseWs_cons_nonspace h [],
        show ([c].map Char.toLower) = [c.toLower] from rfl,
        show collapseWs [c.toLower] = [c.toLower] from
          collapseWs_cons_nonspace (hc.trans h) []]
  | c :: c2 :: cs => by
    have hc : isSpaceJS c.toLower = isSpaceJS c := isSpaceJS_toLower c
    have hc2 : isSpaceJS c2.toLower = isSpaceJS c2 := isSpaceJS_toLower c2
    have hmap : (c :: c2 :: cs).map Char.toLower
        = c.toLower :: c2.toLower :: cs.map Char.toLower := rfl
    have hmap2 : (c2 :: cs).map Char.toLower = c2.toLower :: cs.map Char.toLower := rfl
    cases h : isSpaceJS c with
    | false =>
      rw [collapseWs_cons_nonspace h, hmap, collapseWs_cons_nonspace (hc.trans h),
        List.map_cons, map_toLower_collapseWs (c2 :: cs), hmap2]
    | true =>
      cases h2 : isSpaceJS c2 with
      | true =>
        rw [collapseWs_cons_space_space h h2, hmap,
          collapseWs_cons_space_space (hc.trans h) (hc2.trans h2),
          map_toLower_collapseWs (c2 :: cs), hmap2]
      | false =>
        rw [collapseWs_cons_space_nonspace h h2, hmap,
          collapseWs_cons_space_nonspace (hc.trans h) (hc2.trans h2),
          List.map_cons, map_toLower_collapseWs (c2 :: cs), hmap2]
        rfl

theorem isPrefixOf_collapse_reflect : ∀ (m pat : List Char),
    (∀ c ∈ pat, isSpaceJS c = false) → pat.isPrefixOf (collapseWs m) = true →
    pat.isPrefixOf m = true
  | [], pat, _, h => h
  | [c], pat, hfree, h => by
    cases hc : isSpaceJS c with
    | true =>
      rw [collapseWs_singleton hc] at h
      cases pat with
      | nil => rfl
      | cons p ps =>
        rw [show (p :: ps).isPrefixOf [' '] = (p == ' ' && ps.isPrefixOf []) from rfl,
          Bool.and_eq_true, beq_iff_eq] at h
        rw [h.1] at hfree
        exact absurd (hfree ' ' (by simp)) (by decide)
    | false =>
      rwa [show collapseWs [c] = [c] from by simp [collapseWs, hc]] at h
  | c :: c2 :: cs, pat, hfree, h => by
    cases hc : isSpaceJS c with
    | false =>
      rw [collapseWs_cons_nonspace hc] at h
      cases pat with
      | nil => rfl
      | cons p ps =>
        rw [show (p :: ps).isPrefixOf (c :: collapseWs (c2 :: cs)) =
            (p == c && ps.isPrefixOf (collapseWs (c2 :: cs))) from rfl,
          Bool.and_eq_true] at h
        have hps := isPrefixOf_collapse_reflect (c2 :: cs) ps
          (fun x hx => hfree x (by simp [hx])) h.2
        show (p == c && ps.isPrefixOf (c2 :: cs)) = true
        rw [Bool.and_eq_true]
        exact ⟨h.1, hps⟩
    | true =>
      have hpat : pat = [] := by
        cases pat with
        | nil => rfl
        | cons p ps =>
          exfalso
          obtain ⟨t, ht⟩ := isPrefixOf_ex.mp h
          have hhead := collapseWs_head_space (c2 :: cs) hc
          rw [ht] at hhead
          simp only [List.cons_append, List.head?_cons, Option.some.injEq] at hhead
          rw [hhead] at hfree
          exact absurd (hfree ' ' (by simp)) (by decide)
      rw [hpat]
      rfl

theorem listInfixOf_collapse_reflect : ∀ (m pat : List Char),
    (∀ c ∈ pat, isSpaceJS c = false) → listInfixOf pat (collapseWs m) = true →
    listInfixOf pat m = true
  | [], pat, _, h => h
  | [c], pat, hfree, h => by
    cases hc : isSpaceJS c with
    | false => rwa [show collapseWs [c] = [c] from by simp [collapseWs, hc]] at h
    | true =>
      rw [collapseWs_singleton hc] at h
      have hpat : pat = [] := by
        cases pat with
        | nil => rfl
        | cons p ps =>
          exfalso
          rw [show listInfixOf (p :: ps) [' '] =
              ((p :: ps).isPrefixOf [' '] || listInfixOf (p :: ps) []) from rfl,
            Bool.or_eq_true] at h
          rcases h with h | h
          · rw [show (p :: ps).isPrefixOf [' '] = (p == ' ' && ps.isPrefixOf []) from rfl,
              Bool.and_eq_true, beq_iff_eq] at h
            rw [h.1] at hfree
            exact absurd (hfree ' ' (by simp)) (by decide)
          · rw [show listInfixOf (p :: ps) [] = (p :: ps).isEmpty from rfl] at h
            cases h
      rw [hpat]
      rfl
  | c :: c2 :: cs, pat, hfree, h => by
    cases hc : isSpaceJS c with
    | false =>
      rw [collapseWs_cons_nonspace hc,
        show listInfixOf pat (c :: collapseWs (c2 :: cs)) =
          (pat.isPrefixOf (c :: collapseWs (c2 :: cs)) || listInfixOf pat (collapseWs (c2 :: cs)))
          from rfl, Bool.or_eq_true] at h
      show (pat.isPrefixOf (c :: c2 :: cs) || listInfixOf pat (c2 :: cs)) = true
      rw [Bool.or_eq_true]
      rcases h with h | h
      · refine Or.inl (isPrefixOf_collapse_reflect (c :: c2 :: cs) pat hfree ?_)
        rwa [collapseWs_cons_nonspace hc]
      · exact Or.inr (listInfixOf_collapse_reflect (c2 :: cs) pat hfree h)
    | true =>
      cases h2 : isSpaceJS c2 with
      | true =>
        rw [collapseWs_cons_space_space hc h2] at h
        have := listInfixOf_collapse_reflect (c2 :: cs) pat hfree h
        show (pat.isPrefixOf (c :: c2 :: cs) || listInfixOf pat (c2 :: cs)) = true
        rw [Bool.or_eq_true]
        exact Or.inr this
      | false =>
        rw [collapseWs_cons_space_nonspace hc h2,
          show listInfixOf pat (' ' :: collapseWs (c2 :: cs)) =
            (pat.isPrefixOf (' ' :: collapseWs (c2 :: cs)) ||
              listInfixOf pat (collapseWs (c2 :: cs))) from rfl, Bool.or_eq_true] at h
        show (pat.isPrefixOf (c :: c2 :: cs) || listInfixOf pat (c2 :: cs)) = true
        rw [Bool.or_eq_true]
        rcases h with h | h
        · cases pat with
          | nil => exact Or.inl rfl
          | cons p ps =>
            exfalso
            rw [show (p :: ps).isPrefixOf (' ' :: collapseWs (c2 :: cs)) =
                (p == ' ' && ps.isPrefixOf (collapseWs (c2 :: cs))) from rfl,
              Bool.and_eq_true, beq_iff_eq] at h
            rw [h.1] at hfree
            exact absurd (hfree ' ' (by simp)) (by decide)
        · exact Or.inr (listInfixOf_collapse_reflect (c2 :: cs) pat hfree h)

theorem hasStage_collapse {l : List Char} (h : hasStage (collapseWs l) = true) :
    hasStage l = true := by
  rw [hasStage] at h ⊢
  rw [map_toLower_collapseWs] at h
  exact listInfixOf_collapse_reflect (l.map Char.toLower) ("stage".data) (by decide) h

theorem hasStage_mid {x a b m : List Char} (hx : x = a ++ m ++ b) (h : hasStage m = true) :
    hasStage x = true := by
  rw [hasStage] at h ⊢
  obtain ⟨s, t, hst⟩ := listInfixOf_ex.mp h
  refine listInfixOf_ex.mpr ⟨a.map Char.toLower ++ s, t ++ b.map Char.toLower, ?_⟩
  rw [hx]
  simp only [List.map_append, hst]
  simp [List.append_assoc]

theorem hasStage_trimJS {l : List Char} (h : hasStage (trimJS l) = true) : hasStage l = true := by
  obtain ⟨a, b, he⟩ := trimJS_mid l
  exact hasStage_mid he h

theorem ciPref_append_pattern : ∀ (p q l : List Char),
    ciPref (p ++ q) l = (ciPref p l && ciPref q (l.drop p.length))
  | [], q, l => by simp [ciPref]
  | p :: ps, q, [] => rfl
  | p :: ps, q, c :: cs => by
    show (p == c.toLower && ciPref (ps ++ q) cs)
        = ((p == c.toLower && ciPref ps cs) && ciPref q (cs.drop ps.length))
    rw [ciPref_append_pattern ps q cs, Bool.and_assoc]

theorem ciPref_stage_clash (t w : List Char) (h1 : 1 ≤ t.length) (h4 : t.length ≤ 4) :
    ciPref ("stage".data) (t ++ 'S' :: w) = false := by
  have hk : t.length = 1 ∨ t.length = 2 ∨ t.length = 3 ∨ t.length = 4 := by omega
  rcases hk with hk | hk | hk | hk
  · rw [show ("stage".data) = ['s'] ++ ['t', 'a', 'g', 'e'] from rfl, ciPref_append_pattern]
    have h2 : ciPref ['t', 'a', 'g', 'e'] ((t ++ 'S' :: w).drop (['s'] : List Char).length)
        = false := by
      rw [show (['s'] : List Char).length = t.length from by rw [hk]; rfl, List.drop_left]
      show (('t' == Char.toLower 'S') && ciPref ['a', 'g', 'e'] w) = false
      rw [show ('t' == Char.toLower 'S') = false from by decide, Bool.false_and]
    rw [h2, Bool.and_false]
  · rw [show ("stage".data) = ['s', 't'] ++ ['a', 'g', 'e'] from rfl, ciPref_append_pattern]
    have h2 : ciPref ['a', 'g', 'e'] ((t ++ 'S' :: w).drop (['s', 't'] : List Char).length)
        = false := by
      rw [show (['s', 't'] : List Char).length = t.length from by rw [hk]; rfl, List.drop_left]
      show (('a' == Char.toLower 'S') && ciPref ['g', 'e'] w) = false
      rw [show ('a' == Char.toLower 'S') = false from by decide, Bool.false_and]
    rw [h2, Bool.and_false]
  · rw [show ("stage".data) = ['s', 't', 'a'] ++ ['g', 'e'] from rfl, ciPref_append_pattern]
    have h2 : ciPref ['g', 'e'] ((t ++ 'S' :: w).drop (['s', 't', 'a'] : List Char).length)
        = false := by
      rw [show (['s', 't', 'a'] : List Char).length = t.length from by rw [hk]; rfl, List.drop_left]
      show (('g' == Char.toLower 'S') && ciPref ['e'] w) = false
      rw [show ('g' == Char.toLower 'S') = false from by decide, Bool.false_and]
    rw [h2, Bool.and_false]
  · rw [show ("stage".data) = ['s', 't', 'a', 'g'] ++ ['e'] from rfl, ciPref_append_pattern]
    have h2 : ciPref ['e'] ((t ++ 'S' :: w).drop (['s', 't', 'a', 'g'] : List Char).length)
        = false := by
      rw [show (['s', 't', 'a', 'g'] : List Char).length = t.length from by rw [hk]; rfl,
        List.drop_left]
      show (('e' == Char.toLower 'S') && ciPref ([] : List Char) w) = false
      rw [show ('e' == Char.toLower 'S') = false from by decide, Bool.false_and]
    rw [h2, Bool.and_false]

theorem trimL_append_nonspace : ∀ (x : List Char) {c : Char} (y : List Char),
    isSpaceJS c = false → trimL (x ++ c :: y) = trimL x ++ c :: y
  | [], c, y, h => by
    show (c :: y).dropWhile isSpaceJS = ([] : List Char).dropWhile isSpaceJS ++ c :: y
    rw [List.dropWhile_cons]
    simp [h]
  | a :: as, c, y, h => by
    show ((a :: (as ++ c :: y)).dropWhile isSpaceJS) = (a :: as).dropWhile isSpaceJS ++ c :: y
    rw [List.dropWhile_cons, List.dropWhile_cons]
    cases ha : isSpaceJS a with
    | true => simpa [ha] using trimL_append_nonspace as y h
    | false => simp [ha]

theorem trimR_append_space {c : Char} (hc : isSpaceJS c = true) (x : List Char) :
    trimR (x ++ [c]) = trimR x := by
  rw [trimR, trimR, List.reverse_append]
  simp [List.dropWhile_cons, hc]

theorem trimR_cons_of_ne {c : Char} {l : List Char} (h : trimR l ≠ []) :
    trimR (c :: l) = c :: trimR l := by
  have h2 : (l.reverse.dropWhile isSpaceJS).isEmpty = false := by
    cases hx : l.reverse.dropWhile isSpaceJS with
    | nil => exact absurd (by rw [trimR, hx]; rfl) h
    | cons a as => rfl
  rw [trimR, trimR, List.reverse_cons, List.dropWhile_append, h2]
  simp

theorem trimR_append_of_ne (x : List Char) {y : List Char} (h : trimR y ≠ []) :
    trimR (x ++ y) = x ++ trimR y := by
  have h2 : (y.reverse.dropWhile isSpaceJS).isEmpty = false := by
    cases hx : y.reverse.dropWhile isSpaceJS with
    | nil => exact absurd (by rw [trimR, hx]; rfl) h
    | cons a as => rfl
  rw [trimR, trimR, List.reverse_append, List.dropWhile_append, h2]
  simp

theorem trimR_ne_nil {e : Char} (he : isSpaceJS e = false) (W : List Char) :
    trimR (e :: W) ≠ [] := by
  intro h
  rw [trimR] at h
  have h2 : (e :: W).reverse.dropWhile isSpaceJS = [] := by
    cases hx : (e :: W).reverse.dropWhile isSpaceJS with
    | nil => rfl
    | cons x xs => rw [hx] at h; simp at h
  have h3 := List.dropWhile_eq_nil_iff.mp h2 e (by simp)
  rw [he] at h3
  exact Bool.noConfusion h3

theorem stage_leftmost_lift {a b : List Char}
    (hinv : ∀ s t, a = s ++ t → t ≠ [] → ciPref ("stage".data) (t ++ b) = false)
    (w : List Char) (s t : List Char) (hst : trimL (collapseWs a) = s ++ t)
    (htne : t ≠ []) : ciPref ("stage".data) (t ++ 'S' :: w) = false := by
  rcases Nat.lt_or_ge t.length 5 with h5 | h5
  · have h1 : 1 ≤ t.length := by
      cases t with
      | nil => exact absurd rfl htne
      | cons x xs => simp
    exact ciPref_stage_clash t w h1 (by omega)
  · cases hc : ciPref ("stage".data) (t ++ 'S' :: w) with
    | false => rfl
    | true =>
      exfalso
      have hct : ciPref ("stage".data) t = true := by
        rw [← ciPref_append_long ('S' :: w)
          (by rw [show ("stage".data).length = 5 from rfl]; exact h5)]
        exact hc
      obtain ⟨t1, ht1⟩ := trimL_decomp (collapseWs a)
      have hca : collapseWs a = (t1 ++ s) ++ t := by rw [ht1, hst, List.append_assoc]
      have hsc : hasStage (collapseWs a) = true := by
        rw [hca]
        exact hasStage_of_suffix_ciPref hct
      have hsa : hasStage a = true := hasStage_collapse hsc
      obtain ⟨s1, t2, hat, hct2, hl2⟩ := hasStage_split hsa
      have ht2ne : t2 ≠ [] := by
        intro h
        rw [h] at hl2
        simp at hl2
      have hfalse := hinv s1 t2 hat ht2ne
      rw [ciPref_append_long b
        (by rw [show ("stage".data).length = 5 from rfl]; exact hl2), hct2] at hfalse
      exact Bool.noConfusion hfalse

theorem stage_u_shape_nil (a : List Char) :
    trimJS (collapseWs (a ++ "Stage ".data ++ ([] : List Char)))
      = trimL (collapseWs a) ++ "Stage".data := by
  rw [List.append_nil]
  have h1 : collapseWs (a ++ "Stage ".data) = collapseWs a ++ ("Stage".data ++ [' ']) := by
    rw [show a ++ "Stage ".data = a ++ 'S' :: "tage ".data from rfl,
      collapseWs_append_nonspace a 'S' ("tage ".data) (by decide),
      show collapseWs ('S' :: "tage ".data) = "Stage".data ++ [' '] from rfl]
  have hns : headNotSpace (trimL (collapseWs a) ++ "Stage".data).reverse := by
    intro c hc
    rw [List.reverse_append,
      show ("Stage".data).reverse = 'e' :: 'g' :: 'a' :: 't' :: 'S' :: [] from rfl] at hc
    simp only [List.cons_append, List.head?_cons, Option.some.injEq] at hc
    rw [← hc]
    decide
  rw [h1, trimJS,
    show collapseWs a ++ ("Stage".data ++ [' '])
      = collapseWs a ++ 'S' :: ("tage".data ++ [' ']) from rfl,
    trimL_append_nonspace (collapseWs a) ("tage".data ++ [' '])
      (show isSpaceJS 'S' = false from by decide),
    show trimL (collapseWs a) ++ 'S' :: ("tage".data ++ [' '])
      = (trimL (collapseWs a) ++ "Stage".data) ++ [' '] from
      (List.append_assoc (trimL (collapseWs a)) ("Stage".data) [' ']).symm,
    trimR_append_space (show isSpaceJS ' ' = true from by decide), trimR_eq_self hns]

theorem stage_u_shape_cons (a : List Char) {e : Char} (d' : List Char)
    (he : isSpaceJS e = false) :
    trimJS (collapseWs (a ++ "Stage ".data ++ (e :: d')))
      = trimL (collapseWs a) ++ "Stage".data ++ (' ' :: trimR (e :: collapseWs d')) := by
  have h1 : collapseWs (a ++ "Stage ".data ++ (e :: d'))
      = collapseWs a ++ ("Stage".data ++ (' ' :: e :: collapseWs d')) := by
    rw [show a ++ "Stage ".data ++ (e :: d') = a ++ 'S' :: ("tage ".data ++ (e :: d')) from
        List.append_assoc a ("Stage ".data) (e :: d'),
      collapseWs_append_nonspace a 'S' ("tage ".data ++ (e :: d')) (by decide),
      show collapseWs ('S' :: ("tage ".data ++ (e :: d')))
        = "Stage".data ++ collapseWs (' ' :: e :: d') from
        collapseWs_allNonspace_append ("Stage".data) (' ' :: e :: d') (by decide),
      collapseWs_cons_space_nonspace (show isSpaceJS ' ' = true from by decide) he,
      collapseWs_cons_nonspace he]
  have hR : trimR (e :: collapseWs d') ≠ [] := trimR_ne_nil he _
  have hy : trimR (' ' :: e :: collapseWs d') = ' ' :: trimR (e :: collapseWs d') :=
    trimR_cons_of_ne hR
  have hyne : trimR (' ' :: e :: collapseWs d') ≠ [] := by
    rw [hy]
    simp
  rw [h1, trimJS,
    show collapseWs a ++ ("Stage".data ++ (' ' :: e :: collapseWs d'))
      = collapseWs a ++ 'S' :: ("tage".data ++ (' ' :: e :: collapseWs d')) from rfl,
    trimL_append_nonspace (collapseWs a) ("tage".data ++ (' ' :: e :: collapseWs d'))
      (show isSpaceJS 'S' = false from by decide),
    show trimL (collapseWs a) ++ 'S' :: ("tage".data ++ (' ' :: e :: collapseWs d'))
      = (trimL (collapseWs a) ++ "Stage".data) ++ (' ' :: e :: collapseWs d') from
      (List.append_assoc (trimL (collapseWs a)) ("Stage".data)
        (' ' :: e :: collapseWs d')).symm,
    trimR_append_of_ne (trimL (collapseWs a) ++ "Stage".data) hyne, hy]

theorem stage_u_fix (l u : List Char) (hu : u = trimJS (collapseWs (replaceStage l))) :
    trimJS (collapseWs (replaceStage u)) = u := by
  have hsb : spacesBlank u := by
    rw [hu]
    exact spacesBlank_trimJS (spacesBlank_collapseWs _)
  have hnt : noTwoSpaces u := by
    rw [hu]
    exact noTwoSpaces_trimJS (noTwoSpaces_collapseWs _)
  have htr : wsTrimmed u := by
    rw [hu]
    exact wsTrimmed_trimJS _
  cases hB : hasStage u with
  | false =>
    rw [replaceStage_of_not u hB, collapseWs_eq_self u hsb hnt, trimJS_eq_self htr]
  | true =>
    cases hBl : hasStage l with
    | false =>
      exfalso
      rw [hu, replaceStage_of_not l hBl] at hB
      have h2 := hasStage_collapse (hasStage_trimJS hB)
      rw [hBl] at h2
      exact Bool.noConfusion h2
    | true =>
    obtain ⟨a, b, hab, hb, hinv, hrep⟩ := replaceStage_spec l hBl
    have hdns : headNotSpace ((b.drop 5).dropWhile isSpaceJS) := headNotSpace_dropWhile (b.drop 5)
    obtain ⟨t1, ht1⟩ := trimL_decomp (collapseWs a)
    have hA0sb : spacesBlank (trimL (collapseWs a)) :=
      spacesBlank_mid (by rw [List.append_nil]; exact ht1) (spacesBlank_collapseWs a)
    have hA0nt : noTwoSpaces (trimL (collapseWs a)) :=
      noTwoSpaces_mid (by rw [List.append_nil]; exact ht1) (noTwoSpaces_collapseWs a)
    have hA0col : collapseWs (trimL (collapseWs a)) = trimL (collapseWs a) :=
      collapseWs_eq_self _ hA0sb hA0nt
    have hA0trimL : trimL (trimL (collapseWs a)) = trimL (collapseWs a) :=
      trimL_eq_self (headNotSpace_dropWhile _)
    cases hd : (b.drop 5).dropWhile isSpaceJS with
    | nil =>
      have hu2 : u = trimL (collapseWs a) ++ "Stage".data := by
        rw [hu, hrep, hd]
        exact stage_u_shape_nil a
      have hrepu : replaceStage u = trimL (collapseWs a) ++ "Stage ".data ++ ([] : List Char) := by
        rw [hu2]
        exact replaceStage_at (trimL (collapseWs a)) ("Stage".data)
          (fun s t hst htne => stage_leftmost_lift hinv ("tage".data) s t hst htne)
          (by decide)
      rw [hrepu, stage_u_shape_nil (trimL (collapseWs a)), hA0col, hA0trimL, ← hu2]
    | cons e d' =>
      have he : isSpaceJS e = false := hdns e (by rw [hd]; rfl)
      have hu2 : u = trimL (collapseWs a) ++ "Stage".data ++ (' ' :: trimR (e :: collapseWs d')) := by
        rw [hu, hrep, hd]
        exact stage_u_shape_cons a d' he
      have hRhns : headNotSpace (trimR (e :: collapseWs d')) := by
        apply headNotSpace_trimR
        intro c hc
        rw [List.head?_cons, Option.some.injEq] at hc
        rw [← hc]
        exact he
      have hrepu : replaceStage u = u := by
        rw [hu2, List.append_assoc,
          replaceStage_at (trimL (collapseWs a))
            ("Stage".data ++ (' ' :: trimR (e :: collapseWs d')))
            (fun s t hst htne => stage_leftmost_lift hinv
              ("tage".data ++ (' ' :: trimR (e :: collapseWs d'))) s t hst htne)
            (ciPref_append_of_true _ (by decide)),
          show (("Stage".data ++ (' ' :: trimR (e :: collapseWs d'))).drop 5).dropWhile isSpaceJS
            = (trimR (e :: collapseWs d')).dropWhile isSpaceJS from rfl,
          show (trimR (e :: collapseWs d')).dropWhile isSpaceJS = trimR (e :: collapseWs d') from
            trimL_eq_self hRhns]
        simp [List.append_assoc]
      rw [hrepu, collapseWs_eq_self u hsb hnt, trimJS_eq_self htr]

theorem normalizeStage_idem (s : String) :
    normalizeStage (normalizeStage s) = normalizeStage s :=
  congrArg String.mk (stage_u_fix s.data (normalizeStage s).data rfl)

theorem normalizeStage_startsWith {s : String} (hpre : ciPref ("stage".data) s.data = true) :
    strStartsWith (normalizeStage s) "Stage" = true := by
  cases hsd : s.data with
  | nil =>
    rw [hsd] at hpre
    exact Bool.noConfusion hpre
  | cons c cs =>
    have hpre2 : ciPref ("stage".data) (c :: cs) = true := by rw [← hsd]; exact hpre
    have hrep : replaceStage s.data
        = "Stage ".data ++ (((c :: cs).drop 5).dropWhile isSpaceJS) := by
      rw [hsd]
      simp [replaceStage, hpre2]
    show ("Stage".data).isPrefixOf (trimJS (collapseWs (replaceStage s.data))) = true
    rw [hrep]
    cases hdd : ((c :: cs).drop 5).dropWhile isSpaceJS with
    | nil =>
      rw [show "Stage ".data ++ ([] : List Char) = [] ++ "Stage ".data ++ ([] : List Char)
          from by simp, stage_u_shape_nil []]
      rfl
    | cons e d' =>
      have he : isSpaceJS e = false :=
        (headNotSpace_dropWhile ((c :: cs).drop 5)) e
          (show (((c :: cs).drop 5).dropWhile isSpaceJS).head? = some e from by rw [hdd]; rfl)
      rw [show "Stage ".data ++ (e :: d') = [] ++ "Stage ".data ++ (e :: d') from by simp,
        stage_u_shape_cons [] d' he]
      exact isPrefixOf_ex.mpr ⟨' ' :: trimR (e :: collapseWs d'), rfl⟩

theorem sanitize_stage_eq (p : PatientProfile) (rt : Option String) :
    (sanitizePatientProfile p rt).stage = match p.stage with
      | none => none
      | some s => if s == "" then some s else some (normalizeStage s) := rfl

/-- C9 counterexample: the profile whose stage is the bare token `"IIIA"` keeps
the stage `"IIIA"` after sanitization, and `"IIIA"` does not start with
`"Stage"`, so not every non-null stage comes out in the `"Stage <token>"`
form. -/
theorem stage_iiia_unchanged :
    (sanitizePatientProfile profileC9 none).stage = some "IIIA" ∧
    strStartsWith "IIIA" "Stage" = false := by
  constructor
  · rfl
  · decide

/-- C9 (amended): for every profile whose stage is present, non-empty, and
starts with `stage` case-insensitively, `sanitizePatientProfile` returns a
stage of the canonical form: it starts with the literal `"Stage"`, every
whitespace character in it is a single plain blank (no two adjacent), and it
is trimmed at both ends. -/
theorem stage_canonicalization (p : PatientProfile) (s : String) (hs : p.stage = some s)
    (hne : (s == "") = false) (hpre : ciPref ("stage".data) s.data = true) :
    ∃ r : String, (sanitizePatientProfile p none).stage = some r ∧
      strStartsWith r "Stage" = true ∧ spacesBlank r.data ∧ noTwoSpaces r.data ∧
      wsTrimmed r.data := by
  refine ⟨normalizeStage s, ?_, normalizeStage_startsWith hpre, ?_, ?_, ?_⟩
  · rw [sanitize_stage_eq, hs]
    simp [hne]
  · exact spacesBlank_trimJS (spacesBlank_collapseWs _)
  · exact noTwoSpaces_trimJS (noTwoSpaces_collapseWs _)
  · exact wsTrimmed_trimJS _

/-- C9 witness: the amended canonicalization applied to the concrete profile
whose stage is `"stage   iiia"`. -/
theorem stage_canonicalization_witness :
    ∃ r : String, (sanitizePatientProfile profileC9w none).stage = some r ∧
      strStartsWith r "Stage" = true ∧ spacesBlank r.data ∧ noTwoSpaces r.data ∧
      wsTrimmed r.data :=
  stage_canonicalization profileC9w "stage   iiia" rfl (by decide) (by decide)

theorem toUpper_eq_self {c : Char} (h : isUpperAlnum c = true) : c.toUpper = c := by
  have hn : c.toNat < 97 := by
    rw [isUpperAlnum] at h
    simp only [Bool.or_eq_true, Bool.and_eq_true, decide_eq_true_eq, Char.isDigit] at h
    rcases h with ⟨h1, h2⟩ | ⟨h1, h2⟩
    · have h3 : c.val.toNat ≤ 90 := h2
      simp [Char.toNat]
      omega
    · have h3 : c.val.toNat ≤ 57 := h2
      simp [Char.toNat]
      omega
  unfold Char.toUpper
  simp only []
  rw [if_neg (by omega)]

theorem map_id_of_mem {f : Char → Char} : ∀ {l : List Char}, (∀ a ∈ l, f a = a) → l.map f = l
  | [], _ => rfl
  | a :: as, h => by
    rw [List.map_cons, h a (by simp), map_id_of_mem (fun x hx => h x (by simp [hx]))]

theorem normalizeBioKey_fix (k : String) :
    normalizeBioKey (normalizeBioKey k) = normalizeBioKey k := by
  show String.mk ((((k.data.map Char.toUpper).filter isUpperAlnum).map Char.toUpper).filter
      isUpperAlnum) = String.mk ((k.data.map Char.toUpper).filter isUpperAlnum)
  refine congrArg String.mk ?_
  rw [map_id_of_mem (fun a ha => toUpper_eq_self (List.of_mem_filter ha)),
    List.filter_eq_self.mpr (fun a ha => List.of_mem_filter ha)]

theorem lookup_objInsert_self : ∀ (l : List (String × String)) (k v : String),
    (objInsert l k v).lookup k = some v
  | [], k, v => by simp [objInsert, List.lookup]
  | (k0, v0) :: tl, k, v => by
    cases h : (k0 == k) with
    | true => simp [objInsert, h, List.lookup]
    | false =>
      have h2 : (k == k0) = false := by
        cases h3 : (k == k0) with
        | false => rfl
        | true =>
          rw [beq_iff_eq] at h3
          rw [h3] at h
          simp at h
      simp [objInsert, h, List.lookup, h2, lookup_objInsert_self tl k v]

theorem lookup_objInsert_other : ∀ (l : List (String × String)) (k v k' : String),
    (k' == k) = false → (objInsert l k v).lookup k' = l.lookup k'
  | [], k, v, k', h => by simp [objInsert, List.lookup, h]
  | (k0, v0) :: tl, k, v, k', h => by
    cases h0 : (k0 == k) with
    | true =>
      rw [beq_iff_eq] at h0
      subst h0
      simp [objInsert, List.lookup, h]
    | false =>
      cases h1 : (k' == k0) with
      | true => simp [objInsert, h0, List.lookup, h1]
      | false => simp [objInsert, h0, List.lookup, h1, lookup_objInsert_other tl k v k' h]

theorem bioAbsent_objInsert_self (l : List (String × String)) (k v : String) :
    bioAbsent (objInsert l k v) k = (v == "") := by
  simp only [bioAbsent, lookup_objInsert_self]

theorem bioAbsent_objInsert_other (l : List (String × String)) (k v k' : String)
    (h : (k' == k) = false) : bioAbsent (objInsert l k v) k' = bioAbsent l k' := by
  simp only [bioAbsent, lookup_objInsert_other l k v k' h]

theorem objInsert_not_mem : ∀ (l : List (String × String)) (k v : String),
    k ∉ l.map Prod.fst → objInsert l k v = l ++ [(k, v)]
  | [], k, v, _ => rfl
  | (k0, v0) :: tl, k, v, h => by
    have h0 : (k0 == k) = false := by
      cases hb : (k0 == k) with
      | false => rfl
      | true =>
        rw [beq_iff_eq] at hb
        exact absurd (by simp [hb]) h
    simp [objInsert, h0, objInsert_not_mem tl k v (fun hm => h (by simp [hm]))]

theorem mem_objInsert : ∀ {l : List (String × String)} {k v : String} {q : String × String},
    q ∈ objInsert l k v → q = (k, v) ∨ q ∈ l
  | [], k, v, q, h => by
    simp [objInsert] at h
    exact Or.inl h
  | (k0, v0) :: tl, k, v, q, h => by
    cases hb : (k0 == k) with
    | true =>
      rw [show objInsert ((k0, v0) :: tl) k v = (k, v) :: tl from by simp [objInsert, hb]] at h
      rcases List.mem_cons.mp h with h | h
      · exact Or.inl h
      · exact Or.inr (by simp [h])
    | false =>
      rw [show objInsert ((k0, v0) :: tl) k v = (k0, v0) :: objInsert tl k v from by
        simp [objInsert, hb]] at h
      rcases List.mem_cons.mp h with h | h
      · exact Or.inr (by simp [h])
      · rcases mem_objInsert h with h | h
        · exact Or.inl h
        · exact Or.inr (by simp [h])

theorem objInsert_keys : ∀ (l : List (String × String)) (k v : String),
    (objInsert l k v).map Prod.fst
      = if k ∈ l.map Prod.fst then l.map Prod.fst else l.map Prod.fst ++ [k]
  | [], k, v => by simp [objInsert]
  | (k0, v0) :: tl, k, v => by
    cases hb : (k0 == k) with
    | true =>
      rw [beq_iff_eq] at hb
      subst hb
      simp [objInsert]
    | false =>
      have hne : ¬(k = k0) := by
        intro he
        rw [he] at hb
        simp at hb
      rw [show objInsert ((k0, v0) :: tl) k v = (k0, v0) :: objInsert tl k v from by
        simp [objInsert, hb], List.map_cons, objInsert_keys tl k v]
      by_cases hm : k ∈ tl.map Prod.fst
      · rw [if_pos hm, if_pos (by simp [hm])]
        rfl
      · rw [if_neg hm, if_neg (by simp [hne, hm])]
        simp

theorem foldl_objInsert_inv : ∀ (bm acc : List (String × String)),
    ((acc.map Prod.fst).Nodup ∧ ∀ k ∈ acc.map Prod.fst, normalizeBioKey k = k) →
    (((bm.foldl (fun acc p => objInsert acc (normalizeBioKey p.1) p.2) acc).map Prod.fst).Nodup ∧
      ∀ k ∈ (bm.foldl (fun acc p => objInsert acc (normalizeBioKey p.1) p.2) acc).map Prod.fst,
        normalizeBioKey k = k)
  | [], acc, h => h
  | q :: bm', acc, h => by
    rw [List.foldl_cons]
    refine foldl_objInsert_inv bm' _ ⟨?_, ?_⟩
    · show ((objInsert acc (normalizeBioKey q.1) q.2).map Prod.fst).Nodup
      rw [objInsert_keys]
      split
      · exact h.1
      · rename_i hmem
        rw [List.nodup_append]
        refine ⟨h.1, List.nodup_singleton _, fun a ha hb => ?_⟩
        rw [List.mem_singleton] at hb
        rw [hb] at ha
        exact hmem ha
    · intro k hk
      rw [objInsert_keys] at hk
      split at hk
      · exact h.2 k hk
      · rcases List.mem_append.mp hk with hk | hk
        · exact h.2 k hk
        · rw [List.mem_singleton] at hk
          rw [hk]
          exact normalizeBioKey_fix q.1

theorem foldl_objInsert_id : ∀ (B acc : List (String × String)),
    (∀ p ∈ B, normalizeBioKey p.1 = p.1) →
    (acc.map Prod.fst ++ B.map Prod.fst).Nodup →
    B.foldl (fun acc p => objInsert acc (normalizeBioKey p.1) p.2) acc = acc ++ B
  | [], acc, _, _ => by simp
  | (k, v) :: B', acc, hfix, hnd => by
    have hk : normalizeBioKey k = k := hfix (k, v) (by simp)
    have hknotin : k ∉ acc.map Prod.fst := by
      intro hmem
      have hdis := (List.nodup_append.mp hnd).2.2
      exact hdis hmem (by simp)
    have hstep : objInsert acc (normalizeBioKey k) v = acc ++ [(k, v)] := by
      rw [hk]
      exact objInsert_not_mem acc k v hknotin
    have hnd' : ((acc ++ [(k, v)]).map Prod.fst ++ B'.map Prod.fst).Nodup := by
      simpa [List.append_assoc] using hnd
    rw [List.foldl_cons]
    show List.foldl (fun acc p => objInsert acc (normalizeBioKey p.1) p.2)
      (objInsert acc (normalizeBioKey k) v) B' = acc ++ (k, v) :: B'
    rw [hstep,
      foldl_objInsert_id B' (acc ++ [(k, v)]) (fun q hq => hfix q (by simp [hq])) hnd']
    simp

theorem normalizeBiomarkers_fix {B : List (String × String)}
    (hfix : ∀ p ∈ B, normalizeBioKey p.1 = p.1) (hnd : (B.map Prod.fst).Nodup) :
    normalizeBiomarkers B = B := by
  show B.foldl (fun acc p => objInsert acc (normalizeBioKey p.1) p.2) [] = B
  rw [foldl_objInsert_id B [] hfix (by simpa using hnd)]
  simp

theorem inferHER2_cases (T : String) (bm : List (String × String)) :
    inferHER2 T bm = bm ∨ inferHER2 T bm = objInsert bm "HER2" "positive" ∨
      inferHER2 T bm = objInsert bm "HER2" "negative" := by
  unfold inferHER2
  split
  · split
    · right; left; rfl
    · split
      · right; right; rfl
      · split
        · right; right; rfl
        · left; rfl
  · left; rfl

theorem inferER_cases (T : String) (bm : List (String × String)) :
    inferER T bm = bm ∨ inferER T bm = objInsert bm "ER" "positive" ∨
      inferER T bm = objInsert bm "ER" "negative" := by
  unfold inferER
  split
  · split
    · right; left; rfl
    · split
      · right; right; rfl
      · split
        · right; right; rfl
        · split
          · right; left; rfl
          · left; rfl
  · left; rfl

theorem inferPR_cases (T : String) (bm : List (String × String)) :
    inferPR T bm = bm ∨ inferPR T bm = objInsert bm "PR" "positive" ∨
      inferPR T bm = objInsert bm "PR" "negative" := by
  unfold inferPR
  split
  · split
    · right; left; rfl
    · split
      · right; right; rfl
      · split
        · right; right; rfl
        · split
          · right; left; rfl
          · left; rfl
  · left; rfl

theorem bioAbsent_inferER_ne (T : String) (bm : List (String × String)) (k : String)
    (h : (k == "ER") = false) : bioAbsent (inferER T bm) k = bioAbsent bm k := by
  rcases inferER_cases T bm with he | he | he <;> rw [he]
  · exact bioAbsent_objInsert_other bm "ER" "positive" k h
  · exact bioAbsent_objInsert_other bm "ER" "negative" k h

theorem bioAbsent_inferPR_ne (T : String) (bm : List (String × String)) (k : String)
    (h : (k == "PR") = false) : bioAbsent (inferPR T bm) k = bioAbsent bm k := by
  rcases inferPR_cases T bm with he | he | he <;> rw [he]
  · exact bioAbsent_objInsert_other bm "PR" "positive" k h
  · exact bioAbsent_objInsert_other bm "PR" "negative" k h

theorem inferHER2_absent_false {T : String} {bm : List (String × String)}
    (h : bioAbsent bm "HER2" = false) : inferHER2 T bm = bm := by
  simp [inferHER2, h]

theorem inferER_absent_false {T : String} {bm : List (String × String)}
    (h : bioAbsent bm "ER" = false) : inferER T bm = bm := by
  simp [inferER, h]

theorem inferPR_absent_false {T : String} {bm : List (String × String)}
    (h : bioAbsent bm "PR" = false) : inferPR T bm = bm := by
  simp [inferPR, h]

theorem inferHER2_second (T : String) (x C : List (String × String))
    (hx : bioAbsent C "HER2" = bioAbsent (inferHER2 T x) "HER2") :
    inferHER2 T C = C := by
  cases habs : bioAbsent x "HER2" with
  | false =>
    rw [inferHER2_absent_false habs, habs] at hx
    exact inferHER2_absent_false hx
  | true =>
    cases hc1 : (strContains T "her2+" || strContains T "her2-positive" ||
        strContains T "her2 positive" || strContains T "her2pos") with
    | true =>
      have he : inferHER2 T x = objInsert x "HER2" "positive" := by
        simp [inferHER2, habs, hc1]
      rw [he, bioAbsent_objInsert_self] at hx
      exact inferHER2_absent_false (by rw [hx]; rfl)
    | false =>
      cases hc2 : (strContains T "her2-" || strContains T "her2-negative" ||
          strContains T "her2 negative" || strContains T "her2neg") with
      | true =>
        have he : inferHER2 T x = objInsert x "HER2" "negative" := by
          simp [inferHER2, habs, hc1, hc2]
        rw [he, bioAbsent_objInsert_self] at hx
        exact inferHER2_absent_false (by rw [hx]; rfl)
      | false =>
        cases hc3 : (strContains T "triple negative" || strContains T "tnbc") with
        | true =>
          have he : inferHER2 T x = objInsert x "HER2" "negative" := by
            simp [inferHER2, habs, hc1, hc2, hc3]
          rw [he, bioAbsent_objInsert_self] at hx
          exact inferHER2_absent_false (by rw [hx]; rfl)
        | false =>
          have he : inferHER2 T x = x := by simp [inferHER2, habs, hc1, hc2, hc3]
          rw [he, habs] at hx
          simp [inferHER2, hx, hc1, hc2, hc3]

theorem inferER_second (T : String) (x C : List (String × String))
    (hx : bioAbsent C "ER" = bioAbsent (inferER T x) "ER") :
    inferER T C = C := by
  cases habs : bioAbsent x "ER" with
  | false =>
    rw [inferER_absent_false habs, habs] at hx
    exact inferER_absent_false hx
  | true =>
    cases hc1 : (strContains T "er+" || strContains T "er-positive" ||
        strContains T "er positive" || strContains T "erpos") with
    | true =>
      have he : inferER T x = objInsert x "ER" "positive" := by
        simp [inferER, habs, hc1]
      rw [he, bioAbsent_objInsert_self] at hx
      exact inferER_absent_false (by rw [hx]; rfl)
    | false =>
      cases hc2 : (strContains T "er-" || strContains T "er-negative" ||
          strContains T "er negative" || strContains T "erneg") with
      | true =>
        have he : inferER T x = objInsert x "ER" "negative" := by
          simp [inferER, habs, hc1, hc2]
        rw [he, bioAbsent_objInsert_self] at hx
        exact inferER_absent_false (by rw [hx]; rfl)
      | false =>
        cases hc3 : (strContains T "triple negative" || strContains T "tnbc") with
        | true =>
          have he : inferER T x = objInsert x "ER" "negative" := by
            simp [inferER, habs, hc1, hc2, hc3]
          rw [he, bioAbsent_objInsert_self] at hx
          exact inferER_absent_false (by rw [hx]; rfl)
        | false =>
          cases hc4 : (strContains T "hr+" || strContains T "hr-positive" ||
              strContains T "hormone receptor positive") with
          | true =>
            have he : inferER T x = objInsert x "ER" "positive" := by
              simp [inferER, habs, hc1, hc2, hc3, hc4]
            rw [he, bioAbsent_objInsert_self] at hx
            exact inferER_absent_false (by rw [hx]; rfl)
          | false =>
            have he : inferER T x = x := by simp [inferER, habs, hc1, hc2, hc3, hc4]
            rw [he, habs] at hx
            simp [inferER, hx, hc1, hc2, hc3, hc4]

theorem inferPR_second (T : String) (x C : List (String × String))
    (hx : bioAbsent C "PR" = bioAbsent (inferPR T x) "PR") :
    inferPR T C = C := by
  cases habs : bioAbsent x "PR" with
  | false =>
    rw [inferPR_absent_false habs, habs] at hx
    exact inferPR_absent_false hx
  | true =>
    cases hc1 : (strContains T "pr+" || strContains T "pr-positive" ||
        strContains T "pr positive" || strContains T "prpos") with
    | true =>
      have he : inferPR T x = objInsert x "PR" "positive" := by
        simp [inferPR, habs, hc1]
      rw [he, bioAbsent_objInsert_self] at hx
      exact inferPR_absent_false (by rw [hx]; rfl)
    | false =>
      cases hc2 : (strContains T "pr-" || strContains T "pr-negative" ||
          strContains T "pr negative" || strContains T "prneg") with
      | true =>
        have he : inferPR T x = objInsert x "PR" "negative" := by
          simp [inferPR, habs, hc1, hc2]
        rw [he, bioAbsent_objInsert_self] at hx
        exact inferPR_absent_false (by rw [hx]; rfl)
      | false =>
        cases hc3 : (strContains T "triple negative" || strContains T "tnbc") with
        | true =>
          have he : inferPR T x = objInsert x "PR" "negative" := by
            simp [inferPR, habs, hc1, hc2, hc3]
          rw [he, bioAbsent_objInsert_self] at hx
          exact inferPR_absent_false (by rw [hx]; rfl)
        | false =>
          cases hc4 : (strContains T "hr+" || strContains T "hr-positive" ||
              strContains T "hormone receptor positive") with
          | true =>
            have he : inferPR T x = objInsert x "PR" "positive" := by
              simp [inferPR, habs, hc1, hc2, hc3, hc4]
            rw [he, bioAbsent_objInsert_self] at hx
            exact inferPR_absent_false (by rw [hx]; rfl)
          | false =>
            have he : inferPR T x = x := by simp [inferPR, habs, hc1, hc2, hc3, hc4]
            rw [he, habs] at hx
            simp [inferPR, hx, hc1, hc2, hc3, hc4]

theorem clampAge_idem (a : Int) : clampAge (clampAge a) = clampAge a := by
  simp only [clampAge]
  split_ifs <;> omega

theorem normalizePerfStatus_idem (ps : String) :
    normalizePerfStatus (normalizePerfStatus ps) = normalizePerfStatus ps := by
  cases h1 : strStartsWith (strUpper ps) "ECOG" with
  | true =>
    have e : normalizePerfStatus ps = ps := by simp [normalizePerfStatus, h1]
    rw [e]
    exact e
  | false =>
    cases hf : ps.data.find? Char.isDigit with
    | none =>
      have e : normalizePerfStatus ps = ps := by simp [normalizePerfStatus, h1, hf]
      rw [e]
      exact e
    | some d =>
      have e : normalizePerfStatus ps = "ECOG " ++ String.mk [d] := by
        simp [normalizePerfStatus, h1, hf]
      rw [e]
      have h2 : strStartsWith (strUpper ("ECOG " ++ String.mk [d])) "ECOG" = true := rfl
      simp [normalizePerfStatus, h2]

theorem infer_step_props {x : List (String × String)} {k : String} (y : List (String × String))
    (hc : y = x ∨ y = objInsert x k "positive" ∨ y = objInsert x k "negative")
    (hk : normalizeBioKey k = k)
    (hfix : ∀ p ∈ x, normalizeBioKey p.1 = p.1) (hnd : (x.map Prod.fst).Nodup) :
    (∀ p ∈ y, normalizeBioKey p.1 = p.1) ∧ (y.map Prod.fst).Nodup := by
  have hgen : ∀ v : String, (∀ p ∈ objInsert x k v, normalizeBioKey p.1 = p.1) ∧
      ((objInsert x k v).map Prod.fst).Nodup := by
    intro v
    constructor
    · intro p hp
      rcases mem_objInsert hp with hp | hp
      · rw [hp]
        exact hk
      · exact hfix p hp
    · rw [objInsert_keys]
      split
      · exact hnd
      · rename_i hmem
        rw [List.nodup_append]
        refine ⟨hnd, List.nodup_singleton _, fun a ha hb => ?_⟩
        rw [List.mem_singleton] at hb
        rw [hb] at ha
        exact hmem ha
  rcases hc with rfl | rfl | rfl
  · exact ⟨hfix, hnd⟩
  · exact hgen "positive"
  · exact hgen "negative"

theorem sanitize_bm_props (T : String) (bm : List (String × String)) :
    (∀ p ∈ inferPR T (inferER T (inferHER2 T (normalizeBiomarkers bm))),
        normalizeBioKey p.1 = p.1) ∧
      ((inferPR T (inferER T (inferHER2 T (normalizeBiomarkers bm)))).map Prod.fst).Nodup := by
  have h0 : ((normalizeBiomarkers bm).map Prod.fst).Nodup ∧
      ∀ k ∈ (normalizeBiomarkers bm).map Prod.fst, normalizeBioKey k = k :=
    foldl_objInsert_inv bm [] ⟨List.nodup_nil, by simp⟩
  have hfix0 : ∀ p ∈ normalizeBiomarkers bm, normalizeBioKey p.1 = p.1 :=
    fun p hp => h0.2 p.1 (List.mem_map_of_mem Prod.fst hp)
  have h1 := infer_step_props (inferHER2 T (normalizeBiomarkers bm))
    (inferHER2_cases T _) rfl hfix0 h0.1
  have h2 := infer_step_props (inferER T (inferHER2 T (normalizeBiomarkers bm)))
    (inferER_cases T _) rfl h1.1 h1.2
  exact infer_step_props (inferPR T (inferER T (inferHER2 T (normalizeBiomarkers bm))))
    (inferPR_cases T _) rfl h2.1 h2.2

theorem sanitize_bm_idem (T : String) (B0 : List (String × String)) :
    inferPR T (inferER T (inferHER2 T (inferPR T (inferER T (inferHER2 T B0)))))
      = inferPR T (inferER T (inferHER2 T B0)) := by
  have hH : inferHER2 T (inferPR T (inferER T (inferHER2 T B0)))
      = inferPR T (inferER T (inferHER2 T B0)) := by
    refine inferHER2_second T B0 _ ?_
    rw [bioAbsent_inferPR_ne T _ "HER2" rfl, bioAbsent_inferER_ne T _ "HER2" rfl]
  have hE : inferER T (inferPR T (inferER T (inferHER2 T B0)))
      = inferPR T (inferER T (inferHER2 T B0)) := by
    refine inferER_second T (inferHER2 T B0) _ ?_
    rw [bioAbsent_inferPR_ne T _ "ER" rfl]
  have hP : inferPR T (inferPR T (inferER T (inferHER2 T B0)))
      = inferPR T (inferER T (inferHER2 T B0)) :=
    inferPR_second T (inferER T (inferHER2 T B0)) _ rfl
  rw [hH, hE, hP]

theorem stageField_idem (o : Option String) :
    (match (match o with
        | none => none
        | some s => if s == "" then some s else some (normalizeStage s)) with
      | none => none
      | some s => if s == "" then some s else some (normalizeStage s))
    = (match o with
        | none => none
        | some s => if s == "" then some s else some (normalizeStage s)) := by
  cases o with
  | none => rfl
  | some s =>
    cases hse : (s == "") with
    | true => simp [hse]
    | false =>
      simp only [hse]
      cases h2 : (normalizeStage s == "") with
      | true => simp [h2]
      | false => simp [h2, normalizeStage_idem]

theorem perfField_idem (o : Option String) :
    (match (match o with
        | none => none
        | some ps => if ps == "" then some ps else some (normalizePerfStatus ps)) with
      | none => none
      | some ps => if ps == "" then some ps else some (normalizePerfStatus ps))
    = (match o with
        | none => none
        | some ps => if ps == "" then some ps else some (normalizePerfStatus ps)) := by
  cases o with
  | none => rfl
  | some ps =>
    cases hse : (ps == "") with
    | true => simp [hse]
    | false =>
      simp only [hse]
      cases h2 : (normalizePerfStatus ps == "") with
      | true => simp [h2]
      | false => simp [h2, normalizePerfStatus_idem]

theorem sanitize_perf_eq (p : PatientProfile) (rt : Option String) :
    (sanitizePatientProfile p rt).performanceStatus = match p.performanceStatus with
      | none => none
      | some ps => if ps == "" then some ps else some (normalizePerfStatus ps) := rfl

theorem sanitize_mk (q : PatientProfile) :
    sanitizePatientProfile q none = PatientProfile.mk
      (clampAge q.age) q.gender q.conditions q.medications q.allergies
      (inferPR (allTextOf q none) (inferER (allTextOf q none) (inferHER2 (allTextOf q none)
        (normalizeBiomarkers q.biomarkers))))
      (match q.stage with
        | none => none
        | some s => if s == "" then some s else some (normalizeStage s))
      q.priorTreatments
      (match q.performanceStatus with
        | none => none
        | some ps => if ps == "" then some ps else some (normalizePerfStatus ps))
      q.labValues := rfl

/-- C5: the profile sanitizer is idempotent when invoked without the optional
raw-text argument: running `sanitizePatientProfile` a second time on its own
output changes nothing — the age clamps, the stage and ECOG format
normalizations, the biomarker re-keying and the HER2/ER/PR inference are all
no-ops on an already sanitized profile. -/
theorem sanitize_idempotent (p : PatientProfile) :
    sanitizePatientProfile (sanitizePatientProfile p none) none
      = sanitizePatientProfile p none := by
  rw [sanitize_mk (sanitizePatientProfile p none), sanitize_mk p]
  simp only [PatientProfile.mk.injEq]
  refine ⟨?_, trivial, trivial, trivial, trivial, ?_, ?_, trivial, ?_, trivial⟩
  · exact clampAge_idem p.age
  · show inferPR (allTextOf p none) (inferER (allTextOf p none) (inferHER2 (allTextOf p none)
        (normalizeBiomarkers (inferPR (allTextOf p none) (inferER (allTextOf p none)
          (inferHER2 (allTextOf p none) (normalizeBiomarkers p.biomarkers)))))))
      = inferPR (allTextOf p none) (inferER (allTextOf p none) (inferHER2 (allTextOf p none)
          (normalizeBiomarkers p.biomarkers)))
    have hp := sanitize_bm_props (allTextOf p none) p.biomarkers
    rw [normalizeBiomarkers_fix hp.1 hp.2]
    exact sanitize_bm_idem (allTextOf p none) (normalizeBiomarkers p.biomarkers)
  · exact stageField_idem p.stage
  · exact perfField_idem p.performanceStatus

/-- C5 witness: sanitizer idempotence instantiated at a concrete profile. -/
theorem sanitize_idempotent_witness :
    sanitizePatientProfile (sanitizePatientProfile profileC9w none) none
      = sanitizePatientProfile profileC9w none :=
  sanitize_idempotent profileC9w

end MatchEngine

